import Mathlib

/-!
Verification of the vozdipovo LLM-rotation / pipeline core.

This file shallowly embeds the claim-relevant parts of the repository:

* `src/vozdipovo_app/llm/errors.py` — error kinds, `LLMErrorDetails`,
  `LLMError.retryable` / `LLMError.cooldown_seconds`, header parsing,
  `classify_llm_error`;
* `src/vozdipovo_app/llm/http_transport.py` — `HTTPTransport._handle_response_text`
  and its helpers (`_kind_from_status`, `_best_message`);
* `src/vozdipovo_app/llm/rotator.py` — `LLMRotator.chat` and its cooldown /
  disable bookkeeping;
* `src/vozdipovo_app/utils/backoff.py` — `call_with_exponential_backoff`;
* `src/vozdipovo_app/modules/judging_stage.py` — the judging stage's candidate
  query and its per-row success / failure writes.

Modelling conventions: Python `str` is Lean `String` (the messages involved are
ASCII, so `toLower` / `isAlphanum` agree with CPython on the inputs of
interest); `float` wall-clock times are `ℚ`; integer second counts are `Int`;
`None`-able values are `Option`; an exception raised by pure code is an
`Except` error value.  `json.loads` (an external library call) is modelled as
an abstract parse oracle `String → Option PyJson`.  Python keyword-argument
calls to `@dataclass` constructors are modelled explicitly: a call passing a
keyword that is not a declared field raises `TypeError`, exactly as in CPython.
-/

namespace Vozdipovo

/-! ## Python string helpers -/

/-- Python `s.strip()`: drop leading and trailing whitespace. -/
def pyStrip (s : String) : String :=
  ⟨((s.toList.dropWhile Char.isWhitespace).reverse.dropWhile
      Char.isWhitespace).reverse⟩

/-- Python `s.lower()` (ASCII scope, matching the messages involved). -/
def pyLower (s : String) : String :=
  ⟨s.toList.map Char.toLower⟩

/-- `p` is a leading run of `s` (used to implement substring search). -/
def startsWithChars : List Char → List Char → Bool
  | [], _ => true
  | _ :: _, [] => false
  | p :: ps, c :: cs => p == c && startsWithChars ps cs

/-- Python's `pat in s` substring test, on exploded strings. -/
def containsChars (s pat : List Char) : Bool :=
  match s with
  | [] => pat.isEmpty
  | _ :: rest => startsWithChars pat s || containsChars rest pat

/-- Python's `pat in s` substring membership test for `str`. -/
def strContains (s pat : String) : Bool :=
  containsChars s.toList pat.toList

/-- A regex word character (`\w`), ASCII scope: letters, digits, underscore. -/
def isWordChar (c : Char) : Bool :=
  c.isAlphanum || c == '_'

/-- Scanner for the regex `\b([12345]\d\d)\b` of `errors._status_re`:
returns the first three-digit run starting with 1–5 that is delimited by word
boundaries.  `prev` is the character just before the scan position. -/
def statusScan : Option Char → List Char → Option Nat
  | _, [] => none
  | prev, a :: rest =>
    let boundaryBefore : Bool :=
      match prev with
      | none => true
      | some p => !isWordChar p
    match rest with
    | b :: c :: rest2 =>
      let boundaryAfter : Bool :=
        match rest2 with
        | [] => true
        | d :: _ => !isWordChar d
      if boundaryBefore && ('1' ≤ a && a ≤ '5') && b.isDigit && c.isDigit
          && boundaryAfter then
        some ((a.toNat - 48) * 100 + (b.toNat - 48) * 10 + (c.toNat - 48))
      else
        statusScan (some a) rest
    | _ => statusScan (some a) rest

/-- `errors._extract_http_status`: first `\b[1-5]\d\d\b` match in a message. -/
def extract_http_status (msg : String) : Option Nat :=
  statusScan none msg.toList

/-- Python `a or b` for strings: `b` when `a` is empty (falsy). -/
def pyOrStr (a b : String) : String :=
  if a = "" then b else a

/-- Python `a or b` for `Optional[str] a`: `b` when `a` is `None` or empty. -/
def pyOrStrOpt (a : Option String) (b : String) : String :=
  match a with
  | none => b
  | some s => pyOrStr s b

/-- Python `a or b` for `Optional[int] a`: `b` when `a` is `None` or `0`. -/
def pyOrInt (a : Option Int) (b : Int) : Int :=
  match a with
  | none => b
  | some x => if x = 0 then b else x

/-- Digits of a decimal literal to a natural number. -/
def digitsToNat (cs : List Char) : Nat :=
  cs.foldl (fun acc c => acc * 10 + (c.toNat - 48)) 0

/-- Unsigned part of `int(float(v))` for a decimal literal `digits[.digits]`.
Returns `none` when the text is not of that canonical shape. -/
def parseUnsignedDecimal (cs : List Char) : Option Nat :=
  let intPart := cs.takeWhile Char.isDigit
  let rest := cs.dropWhile Char.isDigit
  if intPart.isEmpty then none
  else
    match rest with
    | [] => some (digitsToNat intPart)
    | '.' :: frac => if frac.all Char.isDigit then some (digitsToNat intPart) else none
    | _ => none

/-- Models Python `int(float(v))` on a header value: accepts optionally signed
decimal literals with a leading digit and truncates toward zero.  Exotic float
syntax (leading dot, exponents, `inf`) is outside the modelled scope and maps
to `none`, as does any text on which CPython's `float` raises. -/
def pyNumStrToInt (s : String) : Option Int :=
  let t := pyStrip s
  match t.toList with
  | '-' :: rest => (parseUnsignedDecimal rest).map (fun n => -(Int.ofNat n))
  | '+' :: rest => (parseUnsignedDecimal rest).map Int.ofNat
  | cs => (parseUnsignedDecimal cs).map Int.ofNat

/-! ## `llm/errors.py` -/

/-- `errors.ErrorKind`. -/
inductive ErrorKind where
  | unknown
  | network
  | timeout
  | rate_limit
  | auth
  | not_found
  | invalid_request
  | provider_unavailable
  | parse
  | server_error
  | all_models_unavailable
  deriving DecidableEq, Repr

/-- The string payload of each `ErrorKind` member. -/
def ErrorKind.value : ErrorKind → String
  | .unknown => "unknown"
  | .network => "network"
  | .timeout => "timeout"
  | .rate_limit => "rate_limit"
  | .auth => "auth"
  | .not_found => "not_found"
  | .invalid_request => "invalid_request"
  | .provider_unavailable => "provider_unavailable"
  | .parse => "parse"
  | .server_error => "server_error"
  | .all_models_unavailable => "all_models_unavailable"

/-- `errors.LLMErrorDetails` (a frozen, slotted dataclass).  The `extra`
payload only ever holds opaque diagnostic data, modelled as string pairs. -/
structure LLMErrorDetails where
  kind : ErrorKind
  provider : Option String := none
  model : Option String := none
  status_code : Option Int := none
  retry_after_seconds : Option Int := none
  message : String := ""
  raw : Option String := none
  extra : Option (List (String × String)) := none
  deriving DecidableEq, Repr

/-- The declared field names of the `LLMErrorDetails` dataclass; a constructor
call passing any other keyword raises `TypeError` in CPython. -/
def llmErrorDetailsFieldNames : List String :=
  ["kind", "provider", "model", "status_code", "retry_after_seconds",
   "message", "raw", "extra"]

/-- `LLMErrorDetails.reason`: the kind's string value. -/
def LLMErrorDetails.reason (d : LLMErrorDetails) : String :=
  d.kind.value

/-- `LLMError.retryable`: membership of the kind in the retryable set. -/
def LLMError.retryable (d : LLMErrorDetails) : Bool :=
  match d.kind with
  | .network | .timeout | .rate_limit | .provider_unavailable | .server_error => true
  | _ => false

/-- `LLMError.cooldown_seconds`: an explicit `retry_after_seconds` wins
(clamped at 0), else a per-kind default. -/
def LLMError.cooldown_seconds (d : LLMErrorDetails) : Int :=
  match d.retry_after_seconds with
  | some r => max 0 r
  | none =>
    if d.kind = .rate_limit then 600
    else if d.kind = .timeout ∨ d.kind = .network then 90
    else if d.kind = .provider_unavailable ∨ d.kind = .server_error then 120
    else 0

/-- The exceptions the embedded code can observe: an `LLMError` carrying its
details, a `TimeoutError`, or any other `Exception` reduced to its `str`. -/
inductive PyException where
  | llmError (d : LLMErrorDetails)
  | timeoutError (msg : String)
  | generic (msg : String)
  deriving DecidableEq, Repr

/-- Python `str(e)`.  For `LLMError`, `__init__` sets the message to
`payload.message or payload.reason or "llm_error"`. -/
def PyException.str : PyException → String
  | .llmError d => pyOrStr d.message (pyOrStr d.reason "llm_error")
  | .timeoutError m => m
  | .generic m => m

/-- `errors.LLMErrorClassification` (a frozen, slotted dataclass). -/
structure LLMErrorClassification where
  retryable : Bool
  cooldown_seconds : Int := 0
  reason : String := ""
  http_status : Option Int := none
  deriving DecidableEq, Repr

/-- The declared field names of the `LLMErrorClassification` dataclass: a
`getattr` for any other attribute name falls back to its default. -/
def llmErrorClassificationFieldNames : List String :=
  ["retryable", "cooldown_seconds", "reason", "http_status"]

/-- `errors.classify_llm_error`. -/
def classify_llm_error (e : PyException) : LLMErrorClassification :=
  let msg := e.str
  let low := pyLower msg
  let http_status : Option Int := (extract_http_status msg).map Int.ofNat
  match e with
  | .llmError d =>
    { retryable := LLMError.retryable d
      cooldown_seconds := LLMError.cooldown_seconds d
      reason := d.reason
      http_status := d.status_code }
  | _ =>
    if (match e with | .timeoutError _ => true | _ => false)
        || strContains low "timeout" || strContains low "timed out" then
      ⟨true, 90, ErrorKind.timeout.value, http_status⟩
    else if http_status = some 429 || strContains low "rate limit"
        || strContains low "too many requests" || strContains low "rate_limit" then
      ⟨true, 600, ErrorKind.rate_limit.value, some 429⟩
    else if http_status = some 401 || http_status = some 403
        || strContains low "unauthorized" || strContains low "forbidden" then
      ⟨false, 0, ErrorKind.auth.value, http_status⟩
    else if http_status = some 404 || strContains low "not found" then
      ⟨false, 0, ErrorKind.not_found.value, some 404⟩
    else if http_status = some 400 || http_status = some 422
        || strContains low "bad request" || strContains low "invalid" then
      ⟨false, 0, ErrorKind.invalid_request.value, http_status⟩
    else if (match http_status with
        | some s => decide (500 ≤ s) && decide (s ≤ 599)
        | none => false : Bool) then
      ⟨true, 120, ErrorKind.server_error.value, http_status⟩
    else if strContains low "overloaded" || strContains low "service unavailable"
        || strContains low "unavailable" then
      ⟨true, 120, ErrorKind.provider_unavailable.value, http_status⟩
    else
      ⟨false, 0, ErrorKind.unknown.value, http_status⟩

/-! ## Response headers and the header-parsing helpers of `llm/errors.py`

`requests` exposes response headers as a case-insensitive mapping; the code
only ever queries the exact spellings below (and their lowercase variants), so
headers are modelled as an association list queried with exact keys, first
match wins (Python `dict.get`). -/

/-- HTTP response headers. -/
def Headers := List (String × String)

/-- `headers.get(k)`. -/
def headersGet (h : Headers) (k : String) : Option String :=
  match List.find? (fun p => p.1 == k) h with
  | none => none
  | some p => some p.2

/-- `errors.parse_retry_after_seconds`: reads `Retry-After` (else its
lowercase spelling, Python `or` chaining on falsy empty strings), strips it,
and parses `int(float(v))`; unparsable or missing values give `None`. -/
def parse_retry_after_seconds (h : Headers) : Option Int :=
  let v := pyStrip (pyOrStrOpt (headersGet h "Retry-After")
    (pyOrStrOpt (headersGet h "retry-after") ""))
  if v = "" then none else pyNumStrToInt v

/-- The reset-header key sequence tried by
`errors.parse_ratelimit_reset_epoch_seconds`. -/
def ratelimitResetKeys : List String :=
  ["X-RateLimit-Reset", "x-ratelimit-reset", "RateLimit-Reset", "ratelimit-reset"]

/-- The key loop of `parse_ratelimit_reset_epoch_seconds`: first key whose
stripped value is non-empty and parses as `int(float(v))`. -/
def firstParsedHeader (h : Headers) : List String → Option Int
  | [] => none
  | k :: ks =>
    let v := pyStrip (pyOrStrOpt (headersGet h k) "")
    if v = "" then firstParsedHeader h ks
    else
      match pyNumStrToInt v with
      | some n => some n
      | none => firstParsedHeader h ks

/-- `errors.parse_ratelimit_reset_epoch_seconds`. -/
def parse_ratelimit_reset_epoch_seconds (h : Headers) : Option Int :=
  firstParsedHeader h ratelimitResetKeys

/-! ## `llm/http_transport.py` -/

/-- The JSON values the transport distinguishes: an object (preserving key
order, first binding wins on lookup as in `json.loads`), a string, or any
other JSON value (number, array, boolean, null), which the code only ever
passes through opaquely. -/
inductive PyJson where
  | obj (fields : List (String × PyJson))
  | str (s : String)
  | other
  deriving Repr

/-- `data.get(k)` on a parsed JSON object's fields. -/
def jsonGet (fields : List (String × PyJson)) (k : String) : Option PyJson :=
  match List.find? (fun p => p.1 == k) fields with
  | none => none
  | some p => some p.2

/-- Python `str(x or "")` for an optional JSON value: `None`, an empty string
and other falsy values render as `""`; a non-empty string renders as itself.
Non-string truthy JSON renders through `str`, abstracted as an opaque tag. -/
def pyStrOrEmpty : Option PyJson → String
  | none => ""
  | some (.str s) => s
  | some (.obj fields) => if fields.isEmpty then "" else "(object)"
  | some .other => "(value)"

/-- `HTTPTransport._best_message`: on a JSON-object body with a nested
`error.message` string, return that message stripped (falling back to the raw
body when it strips to empty); otherwise the raw body.  `jsonLoads` is the
abstract `json.loads` oracle (`none` = parse failure). -/
def best_message (jsonLoads : String → Option PyJson) (body : String) : String :=
  match jsonLoads body with
  | some (.obj fields) =>
    match jsonGet fields "error" with
    | some (.obj efields) =>
      let m := pyStrip (pyStrOrEmpty (jsonGet efields "message"))
      if m ≠ "" then m else body
    | _ => body
  | _ => body

/-- `HTTPTransport._kind_from_status`. -/
def kind_from_status (status : Int) : ErrorKind :=
  if status = 401 ∨ status = 403 then .auth
  else if status = 404 then .not_found
  else if status = 429 then .rate_limit
  else if status = 400 ∨ status = 422 then .invalid_request
  else if 500 ≤ status ∧ status < 600 then .provider_unavailable
  else .unknown

/-- What a call of the transport can raise: the normalised `LLMError`, or —
when a constructor call passes an undeclared keyword — CPython's `TypeError`. -/
inductive PyRaised where
  | llmError (d : LLMErrorDetails)
  | typeError (msg : String)
  deriving Repr

/-- The keywords `_handle_response_text` passes to `LLMErrorDetails(...)` on
the non-2xx branch (http_transport.py lines 216–224). -/
def handleResponseTextKeywords : List String :=
  ["kind", "provider", "model", "status_code", "retry_after_seconds",
   "message", "raw", "meta"]

/-- A Python keyword call succeeds iff every passed keyword names a declared
field. -/
def pyKeywordsAccepted (fields kwargs : List String) : Bool :=
  kwargs.all fields.contains

/-- The `retry_after` value computed on the non-2xx branch of
`_handle_response_text`: the `Retry-After` header (`or 0`), raised on a 429 to
the current distance of a truthy rate-limit reset epoch. -/
def responseRetryAfter (status : Int) (h : Headers) (now : Int) : Int :=
  let retry_after := pyOrInt (parse_retry_after_seconds h) 0
  let reset_epoch := parse_ratelimit_reset_epoch_seconds h
  if status == 429 && (match reset_epoch with | some z => z != 0 | none => false) then
    max retry_after ((match reset_epoch with | some z => z | none => 0) - now)
  else retry_after

/-- The `LLMErrorDetails` value whose field bindings `_handle_response_text`
computes for a non-2xx response (the value the `LLMErrorDetails(...)` call on
lines 216–224 would carry; the call itself also passes the undeclared keyword
`meta`, see `handle_response_text`).  `now` is `int(time.time())`. -/
def response_error_details (jsonLoads : String → Option PyJson) (status : Int)
    (h : Headers) (body_text : String) (provider model : String) (now : Int) :
    LLMErrorDetails :=
  let retry_after := responseRetryAfter status h now
  let raw_text := body_text.take 2000
  { kind := kind_from_status status
    provider := some provider
    model := some model
    status_code := some status
    retry_after_seconds := if retry_after > 0 then some retry_after else none
    message := best_message jsonLoads raw_text
    raw := some raw_text }

/-- `HTTPTransport._handle_response_text`.  On 2xx the body is parsed
(`jsonLoads`); a non-object or unparsable body raises the `parse`-kind
`LLMError` (CPython's parse-exception text is abstracted).  On non-2xx the
code computes the classified details and calls `LLMErrorDetails(..., meta=...)`;
since `meta` is not a declared field of the dataclass, that constructor call
itself raises `TypeError`. -/
def handle_response_text (jsonLoads : String → Option PyJson) (status : Int)
    (h : Headers) (body_text : String) (provider model : String) (now : Int) :
    Except PyRaised PyJson :=
  if 200 ≤ status ∧ status < 300 then
    match jsonLoads body_text with
    | some (.obj fields) => .ok (.obj fields)
    | some _ =>
      .error (.llmError
        { kind := .parse
          provider := some provider
          model := some model
          status_code := some status
          message := "JSON não é um objeto"
          raw := some (body_text.take 2000) })
    | none =>
      .error (.llmError
        { kind := .parse
          provider := some provider
          model := some model
          status_code := some status
          message := "json_parse_error"
          raw := some (body_text.take 2000) })
  else
    if pyKeywordsAccepted llmErrorDetailsFieldNames handleResponseTextKeywords then
      .error (.llmError
        (response_error_details jsonLoads status h body_text provider model now))
    else
      .error (.typeError
        "LLMErrorDetails.__init__ got an unexpected keyword argument meta")

/-! ## `llm/rotator.py`

The provider clients (`GroqClient` / `OpenRouterClient`) perform the network
call; `LLMRotator._dispatch` is therefore modelled by an outcome oracle
`ModelSpec → ChatAttemptOutcome` giving, per candidate, what its single
transport call of this `chat` invocation produces.  Wall-clock `time.time()`
is the `now : ℚ` argument.  The request payload only flows into the dispatched
call, so it is absorbed by the oracle. -/

/-- `models.LLMProvider`. -/
inductive LLMProvider where
  | groq
  | openrouter
  deriving DecidableEq, Repr

/-- The provider enum's string value. -/
def LLMProvider.value : LLMProvider → String
  | .groq => "groq"
  | .openrouter => "openrouter"

/-- `rotator.ModelSpec`. -/
structure ModelSpec where
  provider : LLMProvider
  model : String
  deriving DecidableEq, Repr

/-- `ModelSpec.key`. -/
def ModelSpec.key (s : ModelSpec) : String × String :=
  (s.provider.value, s.model)

/-- `models.ChatResponse` (the `raw` provider payload is opaque to the
rotator, which only reads `content`, and is omitted). -/
structure ChatResponse where
  content : String
  provider : String
  model : String
  deriving DecidableEq, Repr

/-- What one dispatched candidate attempt produces: a response, a raised
`LLMError`, or any other exception (the rotator's generic `except Exception`
path, e.g. `RuntimeError` for an unconfigured provider). -/
inductive ChatAttemptOutcome where
  | success (resp : ChatResponse)
  | llmError (d : LLMErrorDetails)
  | crash (msg : String)
  deriving Repr

/-- The mutable state of an `LLMRotator` instance: the candidate list and
default cooldown (constructor fields), the per-model and per-provider
cooldown-until maps, the disabled map (key ↦ truncated reason) and the sticky
`_last_good` preference. -/
structure RotatorState where
  models : List ModelSpec
  default_cooldown_seconds : Int := 120
  cooldowns_model : String × String → Option ℚ := fun _ => none
  cooldowns_provider : String → Option ℚ := fun _ => none
  disabled : String × String → Option String := fun _ => none
  last_good : Option ModelSpec := none

/-- `LLMRotator._is_disabled`. -/
def is_disabled (st : RotatorState) (spec : ModelSpec) : Bool :=
  (st.disabled spec.key).isSome

/-- `LLMRotator._is_in_cooldown`: an active (truthy, future) provider-level
cooldown suppresses the candidate before its own model-level entry is even
consulted; a missing or falsy (0.0) model entry means no cooldown. -/
def is_in_cooldown (st : RotatorState) (now : ℚ) (spec : ModelSpec) : Bool :=
  let p_until := st.cooldowns_provider spec.provider.value
  if (match p_until with
      | some u => u != 0 && decide (now < u)
      | none => false : Bool) then
    true
  else
    match st.cooldowns_model spec.key with
    | none => false
    | some u => if u = 0 then false else decide (now < u)

/-- `LLMRotator._disable`: record the truncated reason for the key. -/
def rotatorDisable (st : RotatorState) (spec : ModelSpec) (reason : String) :
    RotatorState :=
  { st with disabled := fun k =>
      if k = spec.key then some (reason.take 220) else st.disabled k }

/-- `LLMRotator._set_model_cooldown`: until `now + max(1.0, seconds)`. -/
def set_model_cooldown (st : RotatorState) (now : ℚ) (spec : ModelSpec)
    (seconds : Int) : RotatorState :=
  { st with cooldowns_model := fun k =>
      if k = spec.key then some (now + max 1 (seconds : ℚ)) else st.cooldowns_model k }

/-- `LLMRotator._set_provider_cooldown`: until `now + max(1.0, seconds)`. -/
def set_provider_cooldown (st : RotatorState) (now : ℚ) (provider : String)
    (seconds : Int) : RotatorState :=
  { st with cooldowns_provider := fun p =>
      if p = provider then some (now + max 1 (seconds : ℚ)) else st.cooldowns_provider p }

/-- `LLMRotator._resolve_preferred`: first configured spec whose model id
equals the stripped override, if any. -/
def resolve_preferred (st : RotatorState) (model : Option String) :
    Option ModelSpec :=
  let m := pyStrip (model.getD "")
  if m = "" then none
  else List.find? (fun spec => spec.model == m) st.models

/-- `LLMRotator._ordered_models`: the preferred spec first (when configured),
else the sticky `_last_good` first (when configured), else configured order. -/
def ordered_models (st : RotatorState) (preferred : Option ModelSpec) :
    List ModelSpec :=
  match preferred with
  | some p =>
    if p ∈ st.models then p :: st.models.filter (fun m => m ≠ p)
    else
      match st.last_good with
      | some g =>
        if g ∈ st.models then g :: st.models.filter (fun m => m ≠ g)
        else st.models
      | none => st.models
  | none =>
    match st.last_good with
    | some g =>
      if g ∈ st.models then g :: st.models.filter (fun m => m ≠ g)
      else st.models
    | none => st.models

/-- The cooldown delay `chat` computes for a failed attempt that raised an
`LLMError` (rotator.py lines 93–96): `int(max(30, retry_after or default))`. -/
def appliedCooldownDelay (retry_after : Option Int) (default : Int) : Int :=
  max 30 (pyOrInt retry_after default)

/-- Whether a cooldown write was driven by a classified `LLMError` or by the
generic crash path (mirrors which `except` arm performed it). -/
inductive CooldownCause where
  | classified (d : LLMErrorDetails)
  | crash (msg : String)
  deriving DecidableEq, Repr

/-- One cooldown write performed during a `chat` call (mirroring the
`logger.warning` of `_set_model_cooldown` / `_set_provider_cooldown`):
the target map, the key or provider written, the `seconds` argument, and the
branch that performed it. -/
structure CooldownEvent where
  providerLevel : Bool
  key : String × String
  seconds : Int
  cause : CooldownCause
  deriving DecidableEq, Repr

/-- What the termination of `LLMRotator.chat` can raise: the aggregate
`AllModelsUnavailableError`, or `TypeError` when its constructor call passes
undeclared keywords. -/
inductive ChatRaised where
  | allModelsUnavailable (cooldown_seconds : Int) (models : Nat) (last_error : String)
  | typeError (msg : String)
  deriving DecidableEq, Repr

/-- The keyword-only parameters `AllModelsUnavailableError.__init__` declares
(errors.py lines 115–123). -/
def allModelsUnavailableInitKeywords : List String :=
  ["tried_models", "last_error", "provider"]

/-- The keywords `LLMRotator.chat` passes when raising on exhaustion
(rotator.py lines 123–127). -/
def rotatorExhaustKeywords : List String :=
  ["cooldown_seconds", "models", "last_error"]

/-- The outcome of one `chat` call: the Python return-or-raise, the rotator
state after the call, the candidates actually dispatched (in order), and the
cooldown writes performed. -/
structure ChatResult where
  result : Except ChatRaised ChatResponse
  state : RotatorState
  dispatched : List ModelSpec
  cooldownEvents : List CooldownEvent

/-- The candidate loop of `LLMRotator.chat`.  `totalModels` is `len(ordered)`
(used by the exhaustion raise), `last_err` and `last_delay` the running
`last_err` / `last_delay` locals. -/
def chatLoop (now : ℚ) (oracle : ModelSpec → ChatAttemptOutcome)
    (totalModels : Nat) :
    RotatorState → List ModelSpec → Option String → Int →
    List ModelSpec → List CooldownEvent → ChatResult
  | st, [], last_err, last_delay, dispatched, events =>
    -- `raise AllModelsUnavailableError(cooldown_seconds=..., models=..., last_error=...)`:
    -- the constructor only accepts tried_models/last_error/provider, so in
    -- CPython this call raises TypeError instead of the aggregate error.
    { result :=
        if pyKeywordsAccepted allModelsUnavailableInitKeywords rotatorExhaustKeywords then
          .error (.allModelsUnavailable last_delay totalModels
            (pyOrStrOpt last_err ""))
        else
          .error (.typeError
            "AllModelsUnavailableError.__init__ got an unexpected keyword argument cooldown_seconds")
      state := st
      dispatched := dispatched
      cooldownEvents := events }
  | st, spec :: rest, last_err, last_delay, dispatched, events =>
    if is_disabled st spec then
      chatLoop now oracle totalModels st rest last_err last_delay dispatched events
    else if is_in_cooldown st now spec then
      chatLoop now oracle totalModels st rest last_err last_delay dispatched events
    else
      let dispatched := dispatched ++ [spec]
      match oracle spec with
      | .success resp =>
        if pyStrip resp.content = "" then
          -- `raise ValueError("Resposta vazia do LLM")`, caught by the
          -- generic `except Exception` arm: default cooldown for the model.
          let delay := st.default_cooldown_seconds
          let st := set_model_cooldown st now spec delay
          chatLoop now oracle totalModels st rest (some "Resposta vazia do LLM")
            delay dispatched
            (events ++ [⟨false, spec.key, delay, .crash "Resposta vazia do LLM"⟩])
        else
          { result := .ok resp
            state := { st with last_good := some spec }
            dispatched := dispatched
            cooldownEvents := events }
      | .llmError d =>
        let last_err := pyOrStr d.message (PyException.str (.llmError d))
        let delay := appliedCooldownDelay d.retry_after_seconds
          st.default_cooldown_seconds
        if d.kind.value = "not_found" then
          let st := rotatorDisable st spec last_err
          chatLoop now oracle totalModels st rest (some last_err) delay
            dispatched events
        else if d.kind.value = "rate_limit" then
          let st := set_provider_cooldown st now spec.provider.value delay
          chatLoop now oracle totalModels st rest (some last_err) delay
            dispatched
            (events ++ [⟨true, spec.key, delay, .classified d⟩])
        else
          let st := set_model_cooldown st now spec delay
          chatLoop now oracle totalModels st rest (some last_err) delay
            dispatched
            (events ++ [⟨false, spec.key, delay, .classified d⟩])
      | .crash msg =>
        let delay := st.default_cooldown_seconds
        let st := set_model_cooldown st now spec delay
        chatLoop now oracle totalModels st rest (some msg) delay dispatched
          (events ++ [⟨false, spec.key, delay, .crash msg⟩])

/-- `LLMRotator.chat`. -/
def chat (st : RotatorState) (now : ℚ) (oracle : ModelSpec → ChatAttemptOutcome)
    (modelArg : Option String) : ChatResult :=
  let preferred := resolve_preferred st modelArg
  let ordered := ordered_models st preferred
  chatLoop now oracle ordered.length st ordered none
    st.default_cooldown_seconds [] []

/-- One `chat` invocation in a sequence of later calls on the same instance. -/
structure ChatCall where
  now : ℚ
  oracle : ModelSpec → ChatAttemptOutcome
  modelArg : Option String

/-- Run a sequence of `chat` calls, collecting each call's dispatched list. -/
def runChats : RotatorState → List ChatCall → List (List ModelSpec) × RotatorState
  | st, [] => ([], st)
  | st, c :: cs =>
    let r := chat st c.now c.oracle c.modelArg
    let rec' := runChats r.state cs
    (r.dispatched :: rec'.1, rec'.2)

/-! ## `utils/backoff.py`

`call_with_exponential_backoff` retries a nullary `fn`.  The successive
results of invoking `fn` are modelled by an oracle indexed by the attempt
counter, and `random.uniform(-jitter, jitter)` by a sample oracle `js`
(theorems hypothesise `|js n| ≤ jitter`).  Python floats are `ℚ`. -/

/-- The pre-jitter delay of attempt counter `attempt` (0-based, as in the
code: the first sleep happens with `attempt = 0`):
`min(max_delay, base_delay * 2 ** attempt)`. -/
def backoffRawDelay (base_delay max_delay : ℚ) (attempt : ℕ) : ℚ :=
  min max_delay (base_delay * 2 ^ attempt)

/-- The delay computed for attempt counter `attempt`: the raw delay,
multiplied by `1 + u` when `jitter > 0` (`u` the uniform sample), then raised
to `retry_after_seconds` when that hint is supplied. -/
def backoffDelay (base_delay max_delay jitter u : ℚ)
    (retry_after_seconds : Option ℚ) (attempt : ℕ) : ℚ :=
  let d := backoffRawDelay base_delay max_delay attempt
  let d := if 0 < jitter then d * (1 + u) else d
  match retry_after_seconds with
  | none => d
  | some r => max d r

/-- The duration actually slept: `time.sleep(max(0.0, delay))`. -/
def backoffSleptDelay (base_delay max_delay jitter u : ℚ)
    (retry_after_seconds : Option ℚ) (attempt : ℕ) : ℚ :=
  max 0 (backoffDelay base_delay max_delay jitter u retry_after_seconds attempt)

/-- The loop's `is_retryable is not None and not is_retryable(exc)` test:
true when a supplied predicate rejects the exception (stop retrying). -/
def backoffStops (p : Option (PyException → Bool)) (e : PyException) : Bool :=
  match p with
  | some q => !q e
  | none => false

/-- The retry loop of `call_with_exponential_backoff`, returning the final
return-or-raise outcome and the list of slept delays.  `remaining` is
`max_retries - attempt`, so `remaining = 0` is exactly the code's
`attempt >= max_retries` exhaustion test; `oracle n` is the result of the
`n`-th invocation of `fn`; `is_retryable = none` models passing no predicate. -/
def backoffLoop {α : Type} (oracle : ℕ → Except PyException α) (js : ℕ → ℚ)
    (base_delay max_delay jitter : ℚ) (retry_after_seconds : Option ℚ)
    (is_retryable : Option (PyException → Bool)) :
    ℕ → ℕ → List ℚ → Except PyException α × List ℚ
  | remaining, attempt, sleeps =>
    match oracle attempt with
    | .ok a => (.ok a, sleeps)
    | .error e =>
      if backoffStops is_retryable e then
        (.error e, sleeps)
      else
        match remaining with
        | 0 => (.error e, sleeps)
        | r + 1 =>
          let slept := backoffSleptDelay base_delay max_delay jitter (js attempt)
            retry_after_seconds attempt
          backoffLoop oracle js base_delay max_delay jitter retry_after_seconds
            is_retryable r (attempt + 1) (sleeps ++ [slept])

/-- `call_with_exponential_backoff` (after the `retries` alias resolution). -/
def call_with_exponential_backoff {α : Type} (oracle : ℕ → Except PyException α)
    (js : ℕ → ℚ) (max_retries : ℕ) (base_delay max_delay jitter : ℚ)
    (retry_after_seconds : Option ℚ)
    (is_retryable : Option (PyException → Bool)) :
    Except PyException α × List ℚ :=
  backoffLoop oracle js base_delay max_delay jitter retry_after_seconds
    is_retryable max_retries 0 []

/-! ## `modules/judging_stage.py`

The relational store: `legal_docs` rows joined to at most one `news_articles`
row per `legal_doc_id` (the schema's unique index
`idx_news_articles_legal_doc_id_uq`), so `news_articles` is modelled as a map
from `legal_doc_id`.  `TEXT` timestamp columns hold ISO-8601 UTC renderings of
instants; they are modelled through the injective stand-in
`isoOfEpoch : Int → String` applied to epoch seconds, and
`datetime.now(timezone.utc)` is the stage's `now : Int` argument. -/

/-- Stand-in for `_iso(...)` applied to an instant given in epoch seconds. -/
def isoOfEpoch (t : Int) : String :=
  "iso:" ++ toString t

/-- A `legal_docs` row (the columns the judging query touches). -/
structure LegalDoc where
  id : Int
  site_name : String
  title : Option String := none
  url : Option String := none
  raw_payload_json : Option String := none
  content_text : Option String := none
  summary : Option String := none
  raw_html : Option String := none
  deriving DecidableEq, Repr

/-- A `news_articles` row (the columns the judging stage reads or writes). -/
structure NewsArticle where
  legal_doc_id : Int
  titulo : Option String := none
  final_score : Option ℚ := none
  score_editorial : Option ℚ := none
  judge_justification : Option String := none
  reviewed_by_model : Option String := none
  reviewed_at : Option String := none
  decision : Option String := none
  review_status : Option String := none
  review_error : Option String := none
  review_error_kind : Option String := none
  review_http_status : Option Int := none
  review_attempts : Option Int := none
  review_next_retry_at : Option String := none
  created_at : Option String := none
  updated_at : Option String := none
  deriving DecidableEq, Repr

/-- The store consumed by the judging stage. -/
structure DB where
  legal_docs : List LegalDoc
  news_articles : Int → Option NewsArticle

/-- The `WHERE` predicate of the judging candidate query:
`na.id IS NULL OR na.review_status IN ('RETRY')`. -/
def judgingWhere : Option NewsArticle → Bool
  | none => true
  | some na => na.review_status == some "RETRY"

/-- Insert into a list sorted by descending `legal_docs.id` (stable; ids are
the table's primary key). -/
def insertByIdDesc (x : LegalDoc × Option NewsArticle) :
    List (LegalDoc × Option NewsArticle) → List (LegalDoc × Option NewsArticle)
  | [] => [x]
  | y :: ys =>
    if y.1.id ≤ x.1.id ∧ x.1.id ≠ y.1.id then x :: y :: ys
    else y :: insertByIdDesc x ys

/-- `ORDER BY ld.id DESC`. -/
def orderByIdDesc : List (LegalDoc × Option NewsArticle) →
    List (LegalDoc × Option NewsArticle)
  | [] => []
  | x :: xs => insertByIdDesc x (orderByIdDesc xs)

/-- The judging stage's candidate query (judging_stage.py lines 39–54):
left-join each `legal_docs` row to its `news_articles` row, keep rows with no
article or with `review_status = 'RETRY'`, order by `ld.id DESC`, `LIMIT`. -/
def judgingQuery (db : DB) (limit : Nat) :
    List (LegalDoc × Option NewsArticle) :=
  let joined := db.legal_docs.map (fun ld => (ld, db.news_articles ld.id))
  let filtered := joined.filter (fun p => judgingWhere p.2)
  (orderByIdDesc filtered).take limit

/-- One selected row as the stage reads it (`COALESCE` applied). -/
structure CandidateRow where
  legal_doc_id : Int
  site_name : String
  title : String
  url : String
  snippet : String
  deriving DecidableEq, Repr

/-- The `SELECT` list's column extraction for one joined row. -/
def candidateOfJoined (p : LegalDoc × Option NewsArticle) : CandidateRow :=
  { legal_doc_id := p.1.id
    site_name := p.1.site_name
    title := p.1.title.getD ""
    url := p.1.url.getD ""
    snippet := pyOrStrOpt p.1.raw_payload_json
      (pyOrStrOpt p.1.content_text
        (pyOrStrOpt p.1.summary (pyOrStrOpt p.1.raw_html ""))) }

/-- The result of `evaluate_article_significance` as the stage reads it
(`res.get(...)` fields; a missing key is `none`). -/
structure JudgeResult where
  final_score : Option ℚ := none
  score_editorial : Option ℚ := none
  judge_justification : Option String := none
  reviewed_by_model : Option String := none
  reviewed_at : Option String := none
  deriving DecidableEq, Repr

/-- Python `float(x or 0.0)` for an optional numeric field. -/
def pyOrQ (a : Option ℚ) : ℚ :=
  match a with
  | none => 0
  | some q => q

/-- The success-path upsert (judging_stage.py lines 83–125): insert the judged
row, or on conflict overwrite the judged columns, set
`review_status='JUDGED'`, clear the error and retry columns, and leave
`review_attempts` untouched. -/
def applyJudgingSuccess (db : DB) (r : CandidateRow) (res : JudgeResult)
    (threshold : ℚ) (now : Int) : DB :=
  let final_score := pyOrQ res.final_score
  let decision := if final_score ≥ threshold then "WRITE" else "SKIP"
  let titulo := r.title
  let score_editorial := pyOrQ res.score_editorial
  let justification := pyOrStrOpt res.judge_justification ""
  let by_model := pyOrStrOpt res.reviewed_by_model ""
  let reviewed_at := pyOrStrOpt res.reviewed_at (isoOfEpoch now)
  { db with news_articles := fun i =>
      if i = r.legal_doc_id then
        match db.news_articles r.legal_doc_id with
        | none =>
          some { legal_doc_id := r.legal_doc_id
                 titulo := some titulo
                 final_score := some final_score
                 score_editorial := some score_editorial
                 judge_justification := some justification
                 reviewed_by_model := some by_model
                 reviewed_at := some reviewed_at
                 decision := some decision
                 review_status := some "JUDGED"
                 review_attempts := some 1
                 created_at := some (isoOfEpoch now)
                 updated_at := some (isoOfEpoch now) }
        | some old =>
          some { old with
                 titulo := some titulo
                 final_score := some final_score
                 score_editorial := some score_editorial
                 judge_justification := some justification
                 reviewed_by_model := some by_model
                 reviewed_at := some reviewed_at
                 decision := some decision
                 review_status := some "JUDGED"
                 review_error := none
                 review_error_kind := none
                 review_http_status := none
                 review_next_retry_at := none
                 updated_at := some (isoOfEpoch now) }
      else db.news_articles i }

/-- Models `getattr(cls, "retry_after_seconds", None)` on the failure path:
`LLMErrorClassification` declares only the fields in
`llmErrorClassificationFieldNames` (errors.py lines 148–156), none of which is
named `retry_after_seconds`, so the lookup always yields the default `None`. -/
def judgingGetattrRetryAfter (_cls : LLMErrorClassification) : Option Int :=
  none

/-- The columns the failure path computes for a row whose processing raised
`e` (judging_stage.py lines 130–146): classification-derived kind and status,
and `review_next_retry_at = now + retry_after` with
`retry_after = getattr(cls, "retry_after_seconds", None) or` the literal 90.
(`hasattr(cls, "kind")` is false for `LLMErrorClassification`, so the kind
falls through to `str(cls.reason)`.) -/
structure JudgingFailureWrite where
  review_error : String
  review_error_kind : Option String
  review_http_status : Option Int
  review_next_retry_at : String
  deriving DecidableEq, Repr

/-- Compute the failure-path column values for exception `e` at time `now`. -/
def judgingFailureWrite (now : Int) (e : PyException) : JudgingFailureWrite :=
  let cls := classify_llm_error e
  let kind : Option String := some cls.reason
  let retry_after : Int := (judgingGetattrRetryAfter cls).getD 90
  { review_error := e.str
    review_error_kind := kind
    review_http_status := cls.http_status
    review_next_retry_at := isoOfEpoch (now + retry_after) }

/-- The failure-path upsert (judging_stage.py lines 148–177): insert a `RETRY`
row with attempt count 1, or on conflict overwrite the error columns, set
`review_status='RETRY'` and increment
`review_attempts = COALESCE(review_attempts, 0) + 1`. -/
def applyJudgingFailure (db : DB) (r : CandidateRow) (now : Int)
    (e : PyException) : DB :=
  let w := judgingFailureWrite now e
  { db with news_articles := fun i =>
      if i = r.legal_doc_id then
        match db.news_articles r.legal_doc_id with
        | none =>
          some { legal_doc_id := r.legal_doc_id
                 titulo := some r.title
                 review_status := some "RETRY"
                 review_error := some w.review_error
                 review_error_kind := w.review_error_kind
                 review_http_status := w.review_http_status
                 review_attempts := some 1
                 review_next_retry_at := some w.review_next_retry_at
                 created_at := some (isoOfEpoch now)
                 updated_at := some (isoOfEpoch now) }
        | some old =>
          some { old with
                 review_status := some "RETRY"
                 review_error := some w.review_error
                 review_error_kind := w.review_error_kind
                 review_http_status := w.review_http_status
                 review_attempts := some ((old.review_attempts.getD 0) + 1)
                 review_next_retry_at := some w.review_next_retry_at
                 updated_at := some (isoOfEpoch now) }
      else db.news_articles i }

/-- What processing one selected row produces: the judge result dict, or a
raised exception (`evaluate_article_significance` and the success insert run
inside the per-row `try`). -/
inductive JudgeOutcome where
  | ok (res : JudgeResult)
  | exc (e : PyException)

/-- The batch loop of `JudgingStage.run` over the selected rows: each row is
processed inside its own `try`/`except`, the success path counts toward
`processed`, the failure path writes the `RETRY` diagnostics for that row, and
the loop always proceeds to the next row.  (Commits group writes but do not
change the final store contents; the optional throttle sleep has no effect on
the store.) -/
def judgingRun (db0 : DB) (rows : List CandidateRow)
    (oracle : CandidateRow → JudgeOutcome) (threshold : ℚ) (now : Int) :
    DB × Nat :=
  rows.foldl
    (fun acc r =>
      match oracle r with
      | .ok res => (applyJudgingSuccess acc.1 r res threshold now, acc.2 + 1)
      | .exc e => (applyJudgingFailure acc.1 r now e, acc.2))
    (db0, 0)

/-! ## Theorems -/

/-- The keyword set passed by the non-2xx raise of `_handle_response_text`
contains `meta`, which `LLMErrorDetails` does not declare. -/
theorem handleResponseTextKeywords_rejected :
    pyKeywordsAccepted llmErrorDetailsFieldNames handleResponseTextKeywords = false := by
  decide

/-- C1. For every non-2xx HTTP response, `HTTPTransport.post_json` raises a
classified-error-carrying exception and never an unclassified one.  The code
refutes this: on every non-2xx status the `LLMErrorDetails(...)` constructor
call passes the undeclared keyword `meta` (the dataclass's field is named
`extra`), so the path raises `TypeError` — an unclassified exception — and
never the classified `LLMError` its docstring promises. -/
theorem c1_non2xx_raises_unclassified_typeError
    (jsonLoads : String → Option PyJson) (status : Int) (h : Headers)
    (body provider model : String) (now : Int)
    (hs : ¬(200 ≤ status ∧ status < 300)) :
    handle_response_text jsonLoads status h body provider model now =
      .error (.typeError
        "LLMErrorDetails.__init__ got an unexpected keyword argument meta") := by
  simp only [handle_response_text, if_neg hs, handleResponseTextKeywords_rejected,
    Bool.false_eq_true, if_false]

/-- C1 witness: a concrete HTTP 500 response with a plain-text body raises
the unclassified `TypeError`. -/
theorem c1_witness :
    handle_response_text (fun _ => none) 500 [] "oops" "groq" "m1" 0 =
      .error (.typeError
        "LLMErrorDetails.__init__ got an unexpected keyword argument meta") :=
  c1_non2xx_raises_unclassified_typeError (fun _ => none) 500 [] "oops" "groq"
    "m1" 0 (by decide)

/-- C7. For a 429 response whose rate-limit reset header denotes the instant
`now + T` with `T > 0`, the classified cooldown is at least `T`; absent both a
`Retry-After` and a reset header, the rate-limit cooldown is 600 seconds.
Stated over the `LLMErrorDetails` value the non-2xx branch computes
(`response_error_details`) and the classifier's `LLMError.cooldown_seconds`. -/
theorem c7_rate_limit_cooldown (jsonLoads : String → Option PyJson) (h : Headers)
    (body provider model : String) (now : Int) :
    (∀ T : Int, 0 ≤ now → 0 < T →
      parse_ratelimit_reset_epoch_seconds h = some (now + T) →
      T ≤ LLMError.cooldown_seconds
        (response_error_details jsonLoads 429 h body provider model now))
    ∧ (parse_retry_after_seconds h = none →
      parse_ratelimit_reset_epoch_seconds h = none →
      LLMError.cooldown_seconds
        (response_error_details jsonLoads 429 h body provider model now) = 600) := by
  constructor
  · intro T hnow hT hreset
    have hz : now + T ≠ 0 := by omega
    have hra : T ≤ responseRetryAfter 429 h now := by
      simp only [responseRetryAfter, hreset]
      have hcond : ((429 : Int) == 429 && (now + T != 0)) = true := by
        simp [hz]
      rw [if_pos hcond]
      have : now + T - now = T := by omega
      rw [this]
      exact le_max_right _ _
    have hpos : responseRetryAfter 429 h now > 0 := lt_of_lt_of_le hT hra
    simp only [response_error_details, LLMError.cooldown_seconds, if_pos hpos]
    omega
  · intro hra hreset
    have hcomp : responseRetryAfter 429 h now = 0 := by
      simp [responseRetryAfter, hra, hreset, pyOrInt]
    simp [response_error_details, LLMError.cooldown_seconds, hcomp,
      kind_from_status]

/-- C7 witness: with `X-RateLimit-Reset: 1100` at `now = 1000` (T = 100) the
cooldown is at least 100; with no rate-limit headers it is exactly 600. -/
theorem c7_witness :
    (100 : Int) ≤ LLMError.cooldown_seconds
      (response_error_details (fun _ => none) 429
        [("X-RateLimit-Reset", "1100")] "body" "groq" "m1" 1000)
    ∧ LLMError.cooldown_seconds
      (response_error_details (fun _ => none) 429 [] "body" "groq" "m1" 1000)
        = 600 :=
  ⟨(c7_rate_limit_cooldown (fun _ => none) [("X-RateLimit-Reset", "1100")]
      "body" "groq" "m1" 1000).1 100 (by decide) (by decide) (by decide),
   (c7_rate_limit_cooldown (fun _ => none) [] "body" "groq" "m1" 1000).2
      (by decide) (by decide)⟩

/-! ### Rotator lemmas -/

/-- The provider enum's string values are distinct. -/
theorem LLMProvider.value_inj {p q : LLMProvider} (h : p.value = q.value) :
    p = q := by
  cases p <;> cases q <;> simp_all [LLMProvider.value]

/-- `ModelSpec.key` is injective. -/
theorem ModelSpec.key_inj {a b : ModelSpec} (h : a.key = b.key) : a = b := by
  cases a with
  | mk pa ma =>
    cases b with
    | mk pb mb =>
      simp only [ModelSpec.key, Prod.mk.injEq] at h
      obtain ⟨h1, h2⟩ := h
      exact congrArg₂ ModelSpec.mk (LLMProvider.value_inj h1) h2

/-- `_set_model_cooldown` leaves the disabled map untouched. -/
theorem set_model_cooldown_disabled (st : RotatorState) (now : ℚ)
    (spec : ModelSpec) (s : Int) :
    (set_model_cooldown st now spec s).disabled = st.disabled := rfl

/-- `_set_provider_cooldown` leaves the disabled map untouched. -/
theorem set_provider_cooldown_disabled (st : RotatorState) (now : ℚ)
    (p : String) (s : Int) :
    (set_provider_cooldown st now p s).disabled = st.disabled := rfl

/-- `_disable` preserves presence in the disabled map at every key. -/
theorem rotatorDisable_disabled_isSome (st : RotatorState) (spec : ModelSpec)
    (r : String) (k : String × String) (h : (st.disabled k).isSome) :
    ((rotatorDisable st spec r).disabled k).isSome := by
  by_cases hk : k = spec.key <;> simp [rotatorDisable, hk, h]

/-- A key present in the disabled map stays present through the whole
candidate loop of `chat` (nothing ever removes a disabled entry). -/
theorem chatLoop_disabled_mono (now : ℚ) (oracle : ModelSpec → ChatAttemptOutcome)
    (total : Nat) (l : List ModelSpec) :
    ∀ (st : RotatorState) (le : Option String) (ld : Int)
      (disp : List ModelSpec) (ev : List CooldownEvent) (k : String × String),
      (st.disabled k).isSome →
      ((chatLoop now oracle total st l le ld disp ev).state.disabled k).isSome := by
  induction l with
  | nil =>
    intro st le ld disp ev k h
    simpa [chatLoop] using h
  | cons x rest ih =>
    intro st le ld disp ev k h
    by_cases h1 : is_disabled st x
    · simpa [chatLoop, h1] using ih st le ld disp ev k h
    · by_cases h2 : is_in_cooldown st now x
      · simpa [chatLoop, h1, h2] using ih st le ld disp ev k h
      · cases ho : oracle x with
        | success resp =>
          by_cases hc : pyStrip resp.content = ""
          · simpa [chatLoop, h1, h2, ho, hc] using
              ih (set_model_cooldown st now x st.default_cooldown_seconds) _ _ _ _ k
                (by simpa [set_model_cooldown_disabled] using h)
          · simpa [chatLoop, h1, h2, ho, hc] using h
        | llmError d =>
          by_cases hnf : d.kind.value = "not_found"
          · simpa [chatLoop, h1, h2, ho, hnf] using
              ih (rotatorDisable st x
                    (pyOrStr d.message (PyException.str (.llmError d)))) _ _ _ _ k
                (rotatorDisable_disabled_isSome st x _ k h)
          · by_cases hrl : d.kind.value = "rate_limit"
            · simpa [chatLoop, h1, h2, ho, hnf, hrl] using
                ih (set_provider_cooldown st now x.provider.value _) _ _ _ _ k
                  (by simpa [set_provider_cooldown_disabled] using h)
            · simpa [chatLoop, h1, h2, ho, hnf, hrl] using
                ih (set_model_cooldown st now x _) _ _ _ _ k
                  (by simpa [set_model_cooldown_disabled] using h)
        | crash msg =>
          simpa [chatLoop, h1, h2, ho] using
            ih (set_model_cooldown st now x st.default_cooldown_seconds) _ _ _ _ k
              (by simpa [set_model_cooldown_disabled] using h)

/-- A candidate whose key is in the disabled map is never dispatched by the
candidate loop. -/
theorem chatLoop_disabled_not_dispatched (now : ℚ)
    (oracle : ModelSpec → ChatAttemptOutcome) (total : Nat) (spec : ModelSpec)
    (l : List ModelSpec) :
    ∀ (st : RotatorState) (le : Option String) (ld : Int)
      (disp : List ModelSpec) (ev : List CooldownEvent),
      (st.disabled spec.key).isSome → spec ∉ disp →
      spec ∉ (chatLoop now oracle total st l le ld disp ev).dispatched := by
  induction l with
  | nil =>
    intro st le ld disp ev h hnd
    simpa [chatLoop] using hnd
  | cons x rest ih =>
    intro st le ld disp ev h hnd
    by_cases h1 : is_disabled st x
    · simpa [chatLoop, h1] using ih st le ld disp ev h hnd
    · have hxs : x ≠ spec := by
        intro hx
        rw [hx] at h1
        exact h1 (by simpa [is_disabled] using h)
      have hnd' : spec ∉ disp ++ [x] := by
        simp only [List.mem_append, List.mem_singleton]
        rintro (hin | rfl)
        · exact hnd hin
        · exact hxs rfl
      by_cases h2 : is_in_cooldown st now x
      · simpa [chatLoop, h1, h2] using ih st le ld disp ev h hnd
      · cases ho : oracle x with
        | success resp =>
          by_cases hc : pyStrip resp.content = ""
          · simpa [chatLoop, h1, h2, ho, hc] using
              ih (set_model_cooldown st now x st.default_cooldown_seconds) _ _ _ _
                (by simpa [set_model_cooldown_disabled] using h) hnd'
          · simpa [chatLoop, h1, h2, ho, hc] using hnd'
        | llmError d =>
          by_cases hnf : d.kind.value = "not_found"
          · simpa [chatLoop, h1, h2, ho, hnf] using
              ih (rotatorDisable st x
                    (pyOrStr d.message (PyException.str (.llmError d)))) _ _ _ _
                (rotatorDisable_disabled_isSome st x _ spec.key h) hnd'
          · by_cases hrl : d.kind.value = "rate_limit"
            · simpa [chatLoop, h1, h2, ho, hnf, hrl] using
                ih (set_provider_cooldown st now x.provider.value _) _ _ _ _
                  (by simpa [set_provider_cooldown_disabled] using h) hnd'
            · simpa [chatLoop, h1, h2, ho, hnf, hrl] using
                ih (set_model_cooldown st now x _) _ _ _ _
                  (by simpa [set_model_cooldown_disabled] using h) hnd'
        | crash msg =>
          simpa [chatLoop, h1, h2, ho] using
            ih (set_model_cooldown st now x st.default_cooldown_seconds) _ _ _ _
              (by simpa [set_model_cooldown_disabled] using h) hnd'

/-- If a dispatched candidate's attempt produced a `not_found` `LLMError`,
the candidate's key is in the disabled map when the loop finishes. -/
theorem chatLoop_not_found_disables (now : ℚ)
    (oracle : ModelSpec → ChatAttemptOutcome) (total : Nat) (spec : ModelSpec)
    (d : LLMErrorDetails) (ho : oracle spec = .llmError d)
    (hk : d.kind.value = "not_found") (l : List ModelSpec) :
    ∀ (st : RotatorState) (le : Option String) (ld : Int)
      (disp : List ModelSpec) (ev : List CooldownEvent),
      spec ∉ disp →
      spec ∈ (chatLoop now oracle total st l le ld disp ev).dispatched →
      ((chatLoop now oracle total st l le ld disp ev).state.disabled spec.key).isSome := by
  induction l with
  | nil =>
    intro st le ld disp ev hnd hmem
    exact absurd (by simpa [chatLoop] using hmem) hnd
  | cons x rest ih =>
    intro st le ld disp ev hnd hmem
    by_cases h1 : is_disabled st x
    · simp only [chatLoop, h1, if_true] at hmem ⊢
      exact ih st le ld disp ev hnd hmem
    · by_cases h2 : is_in_cooldown st now x
      · simp only [chatLoop, h1, h2, if_true, if_false, Bool.false_eq_true] at hmem ⊢
        exact ih st le ld disp ev hnd hmem
      · by_cases hx : x = spec
        · subst hx
          -- the candidate is attempted here and fails with `not_found`:
          -- `_disable` records its key, which then persists.
          simp only [chatLoop, h1, h2, ho, hk, if_true, if_false,
            Bool.false_eq_true] at hmem ⊢
          exact chatLoop_disabled_mono now oracle total rest _ _ _ _ _ _
            (by simp [rotatorDisable])
        · have hnd' : spec ∉ disp ++ [x] := by
            simp only [List.mem_append, List.mem_singleton]
            rintro (hin | rfl)
            · exact hnd hin
            · exact hx rfl
          cases hox : oracle x with
          | success resp =>
            by_cases hc : pyStrip resp.content = ""
            · simp only [chatLoop, h1, h2, hox, hc, if_true, if_false,
                Bool.false_eq_true] at hmem ⊢
              exact ih _ _ _ _ _ hnd' hmem
            · simp only [chatLoop, h1, h2, hox, hc, if_true, if_false,
                Bool.false_eq_true] at hmem ⊢
              exact absurd hmem hnd'
          | llmError dx =>
            by_cases hnf : dx.kind.value = "not_found"
            · simp only [chatLoop, h1, h2, hox, hnf, if_true, if_false,
                Bool.false_eq_true] at hmem ⊢
              exact ih _ _ _ _ _ hnd' hmem
            · by_cases hrl : dx.kind.value = "rate_limit"
              · simp only [chatLoop, h1, h2, hox, hnf, hrl, if_true, if_false,
                  Bool.false_eq_true] at hmem ⊢
                exact ih _ _ _ _ _ hnd' hmem
              · simp only [chatLoop, h1, h2, hox, hnf, hrl, if_true, if_false,
                  Bool.false_eq_true] at hmem ⊢
                exact ih _ _ _ _ _ hnd' hmem
          | crash msg =>
            simp only [chatLoop, h1, h2, hox, if_true, if_false,
              Bool.false_eq_true] at hmem ⊢
            exact ih _ _ _ _ _ hnd' hmem

/-- Once a candidate's key is in the disabled map, any sequence of later
`chat` calls — with arbitrary clocks, outcomes and overrides — never
dispatches it, and the key is still disabled afterwards. -/
theorem runChats_disabled_never_dispatched (spec : ModelSpec)
    (calls : List ChatCall) :
    ∀ st : RotatorState, (st.disabled spec.key).isSome →
      spec ∉ (runChats st calls).1.flatten
      ∧ (((runChats st calls).2.disabled spec.key).isSome) := by
  induction calls with
  | nil =>
    intro st h
    exact ⟨by simp [runChats], by simpa [runChats] using h⟩
  | cons c cs ih =>
    intro st h
    have hnd : spec ∉ (chat st c.now c.oracle c.modelArg).dispatched :=
      chatLoop_disabled_not_dispatched c.now c.oracle _ spec _ st none
        st.default_cooldown_seconds [] [] h (by simp)
    have hmono : (((chat st c.now c.oracle c.modelArg).state.disabled)
        spec.key).isSome :=
      chatLoop_disabled_mono c.now c.oracle _ _ st none
        st.default_cooldown_seconds [] [] spec.key h
    obtain ⟨h1, h2⟩ := ih (chat st c.now c.oracle c.modelArg).state hmono
    refine ⟨?_, by simpa [runChats] using h2⟩
    simp only [runChats, List.flatten_cons, List.mem_append]
    rintro (hin | hin)
    · exact hnd hin
    · exact h1 hin

/-- C8. Once a candidate fails with a `not_found` classified error within an
`LLMRotator` instance, it enters the disabled map, and no later `chat` call of
that instance — at any later time, with any outcomes — ever dispatches it
again; the disabled entry is never removed. -/
theorem c8_not_found_permanently_disabled (st0 : RotatorState) (now0 : ℚ)
    (oracle0 : ModelSpec → ChatAttemptOutcome) (mo0 : Option String)
    (spec : ModelSpec) (d : LLMErrorDetails)
    (ho : oracle0 spec = .llmError d) (hk : d.kind.value = "not_found")
    (hd : spec ∈ (chat st0 now0 oracle0 mo0).dispatched)
    (calls : List ChatCall) :
    ((chat st0 now0 oracle0 mo0).state.disabled spec.key).isSome
    ∧ spec ∉ (runChats (chat st0 now0 oracle0 mo0).state calls).1.flatten
    ∧ ((runChats (chat st0 now0 oracle0 mo0).state calls).2.disabled
        spec.key).isSome := by
  have hdis : ((chat st0 now0 oracle0 mo0).state.disabled spec.key).isSome :=
    chatLoop_not_found_disables now0 oracle0 _ spec d ho hk _ st0 none
      st0.default_cooldown_seconds [] [] (by simp) hd
  obtain ⟨h1, h2⟩ :=
    runChats_disabled_never_dispatched spec calls
      (chat st0 now0 oracle0 mo0).state hdis
  exact ⟨hdis, h1, h2⟩

/-- C8 witness: a one-candidate rotator whose attempt 404s; the candidate is
dispatched once, disabled, and never dispatched by two later calls (one of
which would succeed). -/
theorem c8_witness :
    (⟨.groq, "m1"⟩ : ModelSpec) ∈
      (chat { models := [⟨.groq, "m1"⟩] } 0
        (fun _ => .llmError { kind := .not_found, message := "model not found" })
        none).dispatched
    ∧ (⟨.groq, "m1"⟩ : ModelSpec) ∉
      (runChats (chat { models := [⟨.groq, "m1"⟩] } 0
          (fun _ => .llmError { kind := .not_found, message := "model not found" })
          none).state
        [⟨1000000, fun _ => .success ⟨"resposta", "groq", "m1"⟩, none⟩,
         ⟨2000000, fun _ => .success ⟨"resposta", "groq", "m1"⟩, none⟩]).1.flatten :=
  ⟨by decide,
   (c8_not_found_permanently_disabled { models := [⟨.groq, "m1"⟩] } 0
      (fun _ => .llmError { kind := .not_found, message := "model not found" })
      none ⟨.groq, "m1"⟩ { kind := .not_found, message := "model not found" }
      rfl rfl (by decide)
      [⟨1000000, fun _ => .success ⟨"resposta", "groq", "m1"⟩, none⟩,
       ⟨2000000, fun _ => .success ⟨"resposta", "groq", "m1"⟩, none⟩]).2.1⟩

/-- An active (non-zero, still-future) provider-level cooldown makes
`_is_in_cooldown` report true for every candidate of that provider,
irrespective of the candidate's own model-level entry. -/
theorem is_in_cooldown_of_provider (st : RotatorState) (now : ℚ)
    (spec : ModelSpec) (u : ℚ)
    (hp : st.cooldowns_provider spec.provider.value = some u) (hu : u ≠ 0)
    (hlt : now < u) :
    is_in_cooldown st now spec = true := by
  simp [is_in_cooldown, hp, hu, hlt]

/-- The provider-cooldown-active invariant is preserved by every state update
the candidate loop performs (`_set_provider_cooldown` writes strictly future,
non-zero deadlines when `now ≥ 0`; the other updates leave the provider map
untouched), so a candidate of a provider whose cooldown is active at call time
is never dispatched by the loop. -/
theorem chatLoop_provider_cooldown_not_dispatched (now : ℚ) (hnow : 0 ≤ now)
    (oracle : ModelSpec → ChatAttemptOutcome) (total : Nat) (spec : ModelSpec)
    (l : List ModelSpec) :
    ∀ (st : RotatorState) (le : Option String) (ld : Int)
      (disp : List ModelSpec) (ev : List CooldownEvent),
      (∃ u, st.cooldowns_provider spec.provider.value = some u ∧ u ≠ 0 ∧ now < u) →
      spec ∉ disp →
      spec ∉ (chatLoop now oracle total st l le ld disp ev).dispatched := by
  induction l with
  | nil =>
    intro st le ld disp ev _ hnd
    simpa [chatLoop] using hnd
  | cons x rest ih =>
    intro st le ld disp ev hP hnd
    obtain ⟨u, hp, hu, hlt⟩ := hP
    have hPst : ∃ u, st.cooldowns_provider spec.provider.value = some u ∧
        u ≠ 0 ∧ now < u := ⟨u, hp, hu, hlt⟩
    -- an updated provider deadline is also non-zero and future
    have hupd : ∀ (p' : String) (s : Int),
        ∃ u', (set_provider_cooldown st now p' s).cooldowns_provider
            spec.provider.value = some u' ∧ u' ≠ 0 ∧ now < u' := by
      intro p' s
      by_cases hpe : spec.provider.value = p'
      · refine ⟨now + max 1 (s : ℚ), ?_, ?_, ?_⟩
        · simp [set_provider_cooldown, hpe]
        · have h1 : (1 : ℚ) ≤ max 1 (s : ℚ) := le_max_left _ _
          have : (0 : ℚ) < now + max 1 (s : ℚ) := by linarith
          exact ne_of_gt this
        · have h1 : (1 : ℚ) ≤ max 1 (s : ℚ) := le_max_left _ _
          linarith
      · exact ⟨u, by simpa [set_provider_cooldown, hpe] using hp, hu, hlt⟩
    by_cases h1 : is_disabled st x
    · simpa [chatLoop, h1] using ih st le ld disp ev hPst hnd
    · by_cases h2 : is_in_cooldown st now x
      · simpa [chatLoop, h1, h2] using ih st le ld disp ev hPst hnd
      · have hxs : x ≠ spec := by
          intro hx
          rw [hx] at h2
          exact h2 (is_in_cooldown_of_provider st now spec u hp hu hlt)
        have hnd' : spec ∉ disp ++ [x] := by
          simp only [List.mem_append, List.mem_singleton]
          rintro (hin | rfl)
          · exact hnd hin
          · exact hxs rfl
        cases ho : oracle x with
        | success resp =>
          by_cases hc : pyStrip resp.content = ""
          · simpa [chatLoop, h1, h2, ho, hc] using
              ih (set_model_cooldown st now x st.default_cooldown_seconds) _ _ _ _
                ⟨u, hp, hu, hlt⟩ hnd'
          · simpa [chatLoop, h1, h2, ho, hc] using hnd'
        | llmError d =>
          by_cases hnf : d.kind.value = "not_found"
          · simpa [chatLoop, h1, h2, ho, hnf] using
              ih (rotatorDisable st x _) _ _ _ _ ⟨u, hp, hu, hlt⟩ hnd'
          · by_cases hrl : d.kind.value = "rate_limit"
            · simpa [chatLoop, h1, h2, ho, hnf, hrl] using
                ih (set_provider_cooldown st now x.provider.value _) _ _ _ _
                  (hupd x.provider.value _) hnd'
            · simpa [chatLoop, h1, h2, ho, hnf, hrl] using
                ih (set_model_cooldown st now x _) _ _ _ _ ⟨u, hp, hu, hlt⟩ hnd'
        | crash msg =>
          simpa [chatLoop, h1, h2, ho] using
            ih (set_model_cooldown st now x st.default_cooldown_seconds) _ _ _ _
              ⟨u, hp, hu, hlt⟩ hnd'

/-- C9. While a provider-level cooldown is active (a non-zero deadline still
in the future at call time `now ≥ 0`), `LLMRotator.chat` dispatches no
candidate of that provider — including candidates never individually
attempted and candidates with no (or expired) model-level cooldown. -/
theorem c9_provider_cooldown_suppresses_all (st : RotatorState) (now : ℚ)
    (oracle : ModelSpec → ChatAttemptOutcome) (mo : Option String)
    (spec : ModelSpec) (u : ℚ) (hnow : 0 ≤ now)
    (hp : st.cooldowns_provider spec.provider.value = some u) (hu : u ≠ 0)
    (hlt : now < u) :
    spec ∉ (chat st now oracle mo).dispatched :=
  chatLoop_provider_cooldown_not_dispatched now hnow oracle _ spec _ st none
    st.default_cooldown_seconds [] [] ⟨u, hp, hu, hlt⟩ (by simp)

/-- C9 witness: with provider `groq` cooling until 50 at `now = 10`, the
never-attempted second groq candidate (with no model-level cooldown) is not
dispatched even though the oracle would answer it. -/
theorem c9_witness :
    (⟨.groq, "m2"⟩ : ModelSpec) ∉
      (chat { models := [⟨.groq, "m1"⟩, ⟨.groq, "m2"⟩]
              cooldowns_provider := fun p => if p = "groq" then some 50 else none }
        10 (fun _ => .success ⟨"resposta", "groq", "m"⟩) none).dispatched :=
  c9_provider_cooldown_suppresses_all _ 10 _ none ⟨.groq, "m2"⟩ 50
    (by norm_num) rfl (by norm_num) (by norm_num)

/-- The delay `chat` applies for an `LLMError`-failing attempt is at least
30 seconds, whatever the error's `retry_after_seconds` hint and whatever the
instance's default cooldown. -/
theorem appliedCooldownDelay_ge_30 (r : Option Int) (dflt : Int) :
    30 ≤ appliedCooldownDelay r dflt :=
  le_max_left _ _

/-- Every cooldown event the candidate loop emits on the classified
(`except LLMError`) branches carries at least 30 seconds. -/
theorem chatLoop_classified_events_ge_30 (now : ℚ)
    (oracle : ModelSpec → ChatAttemptOutcome) (total : Nat) (l : List ModelSpec) :
    ∀ (st : RotatorState) (le : Option String) (ld : Int)
      (disp : List ModelSpec) (ev0 : List CooldownEvent),
      (∀ e d, e ∈ ev0 → e.cause = CooldownCause.classified d → 30 ≤ e.seconds) →
      ∀ e d, e ∈ (chatLoop now oracle total st l le ld disp ev0).cooldownEvents →
        e.cause = CooldownCause.classified d → 30 ≤ e.seconds := by
  induction l with
  | nil =>
    intro st le ld disp ev0 h0 e d hmem hc
    exact h0 e d (by simpa [chatLoop] using hmem) hc
  | cons x rest ih =>
    intro st le ld disp ev0 h0 e d hmem hc
    have happend : ∀ (ne : CooldownEvent),
        (∀ d', ne.cause = CooldownCause.classified d' → 30 ≤ ne.seconds) →
        (∀ e' d', e' ∈ ev0 ++ [ne] → e'.cause = CooldownCause.classified d' →
          30 ≤ e'.seconds) := by
      intro ne hne e' d' hmem' hc'
      rcases List.mem_append.mp hmem' with hin | hin
      · exact h0 e' d' hin hc'
      · rw [List.mem_singleton.mp hin] at hc' ⊢
        exact hne d' hc'
    by_cases h1 : is_disabled st x
    · exact ih st le ld disp ev0 h0 e d (by simpa [chatLoop, h1] using hmem) hc
    · by_cases h2 : is_in_cooldown st now x
      · exact ih st le ld disp ev0 h0 e d
          (by simpa [chatLoop, h1, h2] using hmem) hc
      · cases ho : oracle x with
        | success resp =>
          by_cases hcc : pyStrip resp.content = ""
          · exact ih _ _ _ _ _
              (happend ⟨false, x.key, st.default_cooldown_seconds,
                  .crash "Resposta vazia do LLM"⟩
                (fun d' hd' => nomatch hd')) e d
              (by simpa [chatLoop, h1, h2, ho, hcc] using hmem) hc
          · exact h0 e d (by simpa [chatLoop, h1, h2, ho, hcc] using hmem) hc
        | llmError dx =>
          by_cases hnf : dx.kind.value = "not_found"
          · exact ih _ _ _ _ _ h0 e d
              (by simpa [chatLoop, h1, h2, ho, hnf] using hmem) hc
          · by_cases hrl : dx.kind.value = "rate_limit"
            · exact ih _ _ _ _ _
                (happend ⟨true, x.key,
                    appliedCooldownDelay dx.retry_after_seconds
                      st.default_cooldown_seconds, .classified dx⟩
                  (fun d' _ => appliedCooldownDelay_ge_30 _ _)) e d
                (by simpa [chatLoop, h1, h2, ho, hnf, hrl] using hmem) hc
            · exact ih _ _ _ _ _
                (happend ⟨false, x.key,
                    appliedCooldownDelay dx.retry_after_seconds
                      st.default_cooldown_seconds, .classified dx⟩
                  (fun d' _ => appliedCooldownDelay_ge_30 _ _)) e d
                (by simpa [chatLoop, h1, h2, ho, hnf, hrl] using hmem) hc
        | crash msg =>
          exact ih _ _ _ _ _
            (happend ⟨false, x.key, st.default_cooldown_seconds, .crash msg⟩
              (fun d' hd' => nomatch hd')) e d
            (by simpa [chatLoop, h1, h2, ho] using hmem) hc

/-- C10. Every cooldown `LLMRotator.chat` applies after a failed attempt that
raised an `LLMError` is at least 30 seconds — the applied delay is
`max(30, retry_after_seconds or default_cooldown_seconds)` — so no classified
error can put a model or provider into a cooldown shorter than 30 seconds. -/
theorem c10_classified_cooldown_at_least_30 :
    (∀ (r : Option Int) (dflt : Int), 30 ≤ appliedCooldownDelay r dflt)
    ∧ ∀ (st : RotatorState) (now : ℚ) (oracle : ModelSpec → ChatAttemptOutcome)
        (mo : Option String) (e : CooldownEvent) (d : LLMErrorDetails),
        e ∈ (chat st now oracle mo).cooldownEvents →
        e.cause = CooldownCause.classified d → 30 ≤ e.seconds := by
  refine ⟨appliedCooldownDelay_ge_30, ?_⟩
  intro st now oracle mo e d hmem hc
  exact chatLoop_classified_events_ge_30 now oracle _ _ st none
    st.default_cooldown_seconds [] [] (by simp) e d hmem hc

/-- C10 witness: a server-error response hinting `retry_after_seconds = 5`
still produces a 30-second model cooldown. -/
theorem c10_witness :
    ((⟨false, ("groq", "m1"), 30,
        .classified { kind := .server_error, message := "HTTP 500",
                      retry_after_seconds := some 5 }⟩ : CooldownEvent) ∈
      (chat { models := [⟨.groq, "m1"⟩] } 0
        (fun _ => .llmError { kind := .server_error, message := "HTTP 500",
                              retry_after_seconds := some 5 })
        none).cooldownEvents)
    ∧ (30 : Int) ≤
      (⟨false, ("groq", "m1"), 30,
        .classified { kind := .server_error, message := "HTTP 500",
                      retry_after_seconds := some 5 }⟩ : CooldownEvent).seconds :=
  ⟨by decide,
   c10_classified_cooldown_at_least_30.2 { models := [⟨.groq, "m1"⟩] } 0
     (fun _ => .llmError { kind := .server_error, message := "HTTP 500",
                           retry_after_seconds := some 5 })
     none _ { kind := .server_error, message := "HTTP 500",
              retry_after_seconds := some 5 } (by decide) rfl⟩

/-- The keyword set passed by the exhaustion raise of `LLMRotator.chat`
(`cooldown_seconds=`, `models=`, `last_error=`) is not accepted by
`AllModelsUnavailableError.__init__` (keyword-only parameters `tried_models`,
`last_error`, `provider`). -/
theorem rotatorExhaustKeywords_rejected :
    pyKeywordsAccepted allModelsUnavailableInitKeywords rotatorExhaustKeywords
      = false := by
  decide

/-- The candidate loop never produces the aggregate
`AllModelsUnavailableError`: on exhaustion its constructor call raises
`TypeError` instead. -/
theorem chatLoop_never_allModelsUnavailable (now : ℚ)
    (oracle : ModelSpec → ChatAttemptOutcome) (total : Nat) (l : List ModelSpec) :
    ∀ (st : RotatorState) (le : Option String) (ld : Int)
      (disp : List ModelSpec) (ev : List CooldownEvent)
      (cd : Int) (k : Nat) (lerr : String),
      (chatLoop now oracle total st l le ld disp ev).result ≠
        .error (.allModelsUnavailable cd k lerr) := by
  induction l with
  | nil =>
    intro st le ld disp ev cd k lerr
    simp [chatLoop, rotatorExhaustKeywords_rejected]
  | cons x rest ih =>
    intro st le ld disp ev cd k lerr
    by_cases h1 : is_disabled st x
    · simpa [chatLoop, h1] using ih st le ld disp ev cd k lerr
    · by_cases h2 : is_in_cooldown st now x
      · simpa [chatLoop, h1, h2] using ih st le ld disp ev cd k lerr
      · cases ho : oracle x with
        | success resp =>
          by_cases hc : pyStrip resp.content = ""
          · simpa [chatLoop, h1, h2, ho, hc] using ih _ _ _ _ _ cd k lerr
          · simp [chatLoop, h1, h2, ho, hc]
        | llmError d =>
          by_cases hnf : d.kind.value = "not_found"
          · simpa [chatLoop, h1, h2, ho, hnf] using ih _ _ _ _ _ cd k lerr
          · by_cases hrl : d.kind.value = "rate_limit"
            · simpa [chatLoop, h1, h2, ho, hnf, hrl] using ih _ _ _ _ _ cd k lerr
            · simpa [chatLoop, h1, h2, ho, hnf, hrl] using ih _ _ _ _ _ cd k lerr
        | crash msg =>
          simpa [chatLoop, h1, h2, ho] using ih _ _ _ _ _ cd k lerr

/-- C2. When `LLMRotator.chat` exhausts every candidate it raises the
aggregate `AllModelsUnavailable` failure carrying candidate count, last error
message and last suggested cooldown.  The code refutes this: the raise site
passes the keywords `cooldown_seconds` and `models`, which
`AllModelsUnavailableError.__init__` does not declare, so CPython raises
`TypeError` there — `chat` never raises the aggregate failure (first
conjunct), and a concrete exhausted rotation raises the `TypeError` (second
conjunct). -/
theorem c2_exhaustion_raises_typeError :
    (∀ (st : RotatorState) (now : ℚ) (oracle : ModelSpec → ChatAttemptOutcome)
      (mo : Option String) (cd : Int) (k : Nat) (lerr : String),
      (chat st now oracle mo).result ≠ .error (.allModelsUnavailable cd k lerr))
    ∧ (chat { models := [⟨.groq, "m1"⟩] } 0
        (fun _ => .llmError { kind := .server_error, message := "HTTP 500" })
        none).result =
      .error (.typeError
        "AllModelsUnavailableError.__init__ got an unexpected keyword argument cooldown_seconds") := by
  constructor
  · intro st now oracle mo cd k lerr
    exact chatLoop_never_allModelsUnavailable now oracle _ _ st none
      st.default_cooldown_seconds [] [] cd k lerr
  · rfl

/-! ### Backoff lemmas -/

/-- The pre-jitter backoff delay is monotone in the attempt counter. -/
theorem backoffRawDelay_mono (base_delay max_delay : ℚ) (hb : 0 ≤ base_delay)
    {m n : ℕ} (h : m ≤ n) :
    backoffRawDelay base_delay max_delay m ≤ backoffRawDelay base_delay max_delay n := by
  unfold backoffRawDelay
  refine min_le_min le_rfl ?_
  refine mul_le_mul_of_nonneg_left ?_ hb
  exact pow_le_pow_right₀ (by norm_num) h

/-- The pre-jitter backoff delay never exceeds `max_delay`. -/
theorem backoffRawDelay_le_max (base_delay max_delay : ℚ) (n : ℕ) :
    backoffRawDelay base_delay max_delay n ≤ max_delay :=
  min_le_left _ _

/-- The pre-jitter backoff delay is nonnegative. -/
theorem backoffRawDelay_nonneg (base_delay max_delay : ℚ) (hb : 0 ≤ base_delay)
    (hm : 0 ≤ max_delay) (n : ℕ) :
    0 ≤ backoffRawDelay base_delay max_delay n :=
  le_min hm (mul_nonneg hb (pow_nonneg (by norm_num) n))

/-- Per-sleep bound: the slept duration never exceeds
`max(max_delay * (1 + jitter), suggested wait)`, and is never below the
suggested wait when one is supplied. -/
theorem backoffSleptDelay_bound (base_delay max_delay jitter u : ℚ)
    (hb : 0 ≤ base_delay) (hm : 0 ≤ max_delay) (hj : 0 ≤ jitter)
    (hu : |u| ≤ jitter) (ra : Option ℚ) (n : ℕ) :
    backoffSleptDelay base_delay max_delay jitter u ra n ≤
      max (max_delay * (1 + jitter)) (ra.getD 0)
    ∧ ∀ r, ra = some r →
      r ≤ backoffSleptDelay base_delay max_delay jitter u ra n := by
  have hd0 : backoffRawDelay base_delay max_delay n ≤ max_delay :=
    backoffRawDelay_le_max base_delay max_delay n
  have hd0n : 0 ≤ backoffRawDelay base_delay max_delay n :=
    backoffRawDelay_nonneg base_delay max_delay hb hm n
  have hM : 0 ≤ max_delay * (1 + jitter) :=
    mul_nonneg hm (by linarith)
  have hu' : u ≤ jitter := le_of_abs_le hu
  have hd1 : (if 0 < jitter then backoffRawDelay base_delay max_delay n * (1 + u)
      else backoffRawDelay base_delay max_delay n) ≤ max_delay * (1 + jitter) := by
    by_cases hcase : 0 < jitter
    · rw [if_pos hcase]
      calc backoffRawDelay base_delay max_delay n * (1 + u)
          ≤ backoffRawDelay base_delay max_delay n * (1 + jitter) :=
            mul_le_mul_of_nonneg_left (by linarith) hd0n
        _ ≤ max_delay * (1 + jitter) :=
            mul_le_mul_of_nonneg_right hd0 (by linarith)
    · rw [if_neg hcase]
      have hjz : jitter = 0 := le_antisymm (not_lt.mp hcase) hj
      rw [hjz]
      simpa using hd0
  cases ra with
  | none =>
    refine ⟨?_, by simp⟩
    simp only [backoffSleptDelay, backoffDelay, Option.getD]
    exact max_le (le_trans hM (le_max_left _ _)) (le_trans hd1 (le_max_left _ _))
  | some r =>
    constructor
    · simp only [backoffSleptDelay, backoffDelay, Option.getD]
      refine max_le (le_trans hM (le_max_left _ _)) (max_le ?_ ?_)
      · exact le_trans hd1 (le_max_left _ _)
      · exact le_max_right _ _
    · intro r' hr'
      cases hr'
      simp only [backoffSleptDelay, backoffDelay]
      exact le_trans (le_max_right _ _) (le_max_right _ _)

/-- Unfolding: a successful invocation stops the loop. -/
theorem backoffLoop_ok {α : Type} (oracle : ℕ → Except PyException α)
    (js : ℕ → ℚ) (base_delay max_delay jitter : ℚ) (ra : Option ℚ)
    (p : Option (PyException → Bool)) (rem att : ℕ) (sleeps : List ℚ)
    (a : α) (hor : oracle att = .ok a) :
    backoffLoop oracle js base_delay max_delay jitter ra p rem att sleeps
      = (.ok a, sleeps) := by
  cases rem <;> rw [backoffLoop, hor]

/-- Unfolding: a failure the predicate rejects, or one with no retries left,
propagates with no further sleep. -/
theorem backoffLoop_error_stop {α : Type} (oracle : ℕ → Except PyException α)
    (js : ℕ → ℚ) (base_delay max_delay jitter : ℚ) (ra : Option ℚ)
    (p : Option (PyException → Bool)) (rem att : ℕ) (sleeps : List ℚ)
    (e : PyException) (hor : oracle att = .error e)
    (hstop : backoffStops p e = true ∨ rem = 0) :
    backoffLoop oracle js base_delay max_delay jitter ra p rem att sleeps
      = (.error e, sleeps) := by
  rcases hstop with hret | rfl
  · cases rem <;> (rw [backoffLoop, hor]; simp [hret])
  · rw [backoffLoop, hor]
    by_cases hret : backoffStops p e = true
    · simp [hret]
    · simp [hret]

/-- Unfolding: a retryable failure with retries left sleeps the attempt's
computed delay and recurses. -/
theorem backoffLoop_error_retry {α : Type} (oracle : ℕ → Except PyException α)
    (js : ℕ → ℚ) (base_delay max_delay jitter : ℚ) (ra : Option ℚ)
    (p : Option (PyException → Bool)) (r att : ℕ) (sleeps : List ℚ)
    (e : PyException) (hor : oracle att = .error e)
    (hret : backoffStops p e = false) :
    backoffLoop oracle js base_delay max_delay jitter ra p (r + 1) att sleeps
      = backoffLoop oracle js base_delay max_delay jitter ra p r (att + 1)
          (sleeps ++
            [backoffSleptDelay base_delay max_delay jitter (js att) ra att]) := by
  rw [backoffLoop, hor]
  simp [hret, backoffSleptDelay]

/-- Every sleep the backoff loop performs satisfies any property that holds of
each attempt's computed slept delay. -/
theorem backoffLoop_sleeps_prop {α : Type} (oracle : ℕ → Except PyException α)
    (js : ℕ → ℚ) (base_delay max_delay jitter : ℚ) (ra : Option ℚ)
    (p : Option (PyException → Bool)) (P : ℚ → Prop)
    (hP : ∀ n, P (backoffSleptDelay base_delay max_delay jitter (js n) ra n)) :
    ∀ (rem att : ℕ) (sleeps0 : List ℚ), (∀ s ∈ sleeps0, P s) →
      ∀ s ∈ (backoffLoop oracle js base_delay max_delay jitter ra p
        rem att sleeps0).2, P s := by
  intro rem
  induction rem with
  | zero =>
    intro att sleeps0 h0 s hs
    cases hor : oracle att with
    | ok a =>
      rw [backoffLoop_ok oracle js base_delay max_delay jitter ra p 0 att
        sleeps0 a hor] at hs
      exact h0 s hs
    | error e =>
      rw [backoffLoop_error_stop oracle js base_delay max_delay jitter ra p 0
        att sleeps0 e hor (Or.inr rfl)] at hs
      exact h0 s hs
  | succ r ih =>
    intro att sleeps0 h0 s hs
    cases hor : oracle att with
    | ok a =>
      rw [backoffLoop_ok oracle js base_delay max_delay jitter ra p (r + 1) att
        sleeps0 a hor] at hs
      exact h0 s hs
    | error e =>
      cases hret : backoffStops p e with
      | true =>
        rw [backoffLoop_error_stop oracle js base_delay max_delay jitter ra p
          (r + 1) att sleeps0 e hor (Or.inl hret)] at hs
        exact h0 s hs
      | false =>
        rw [backoffLoop_error_retry oracle js base_delay max_delay jitter ra p
          r att sleeps0 e hor hret] at hs
        refine ih (att + 1) _ ?_ s hs
        intro s' hmem'
        rcases List.mem_append.mp hmem' with h | h
        · exact h0 s' h
        · rw [List.mem_singleton.mp h]
          exact hP att

/-- C6 counterexample.  The claim asserts both that the slept delay never
exceeds `max_delay * (1 + jitter_fraction)` and that it is floored at the
explicit suggested wait; with `base_delay = 1`, `max_delay = 60`,
`jitter = 1/4`, a zero jitter draw and a suggested wait of 100 seconds, the
single retry sleeps exactly 100 seconds, which exceeds
`60 * (1 + 1/4) = 75` — the bound clause is false. -/
theorem c6_counterexample :
    (call_with_exponential_backoff (α := Nat)
        (fun _ => .error (.generic "boom")) (fun _ => 0) 1 1 60 (1/4)
        (some 100) none).2 = [100]
    ∧ ¬((100 : ℚ) ≤ 60 * (1 + 1/4)) := by
  constructor
  · norm_num [call_with_exponential_backoff, backoffLoop, backoffSleptDelay,
      backoffDelay, backoffRawDelay, backoffStops]
  · norm_num

/-- C6 (amended).  For every attempt sequence produced by
`call_with_exponential_backoff` (nonnegative `base_delay`, `max_delay`,
`jitter`, jitter draws within `±jitter`): the pre-jitter backoff delay
`min(max_delay, base_delay * 2^(attempt-1))` is monotonically non-decreasing
in the attempt number and never exceeds `max_delay`; every slept delay is
floored at the explicit suggested wait when one is supplied; and every slept
delay is bounded by `max(max_delay * (1 + jitter), suggested wait)` — without
a suggested wait, by `max_delay * (1 + jitter)` alone. -/
theorem c6_backoff_delay_bounds {α : Type} (oracle : ℕ → Except PyException α)
    (js : ℕ → ℚ) (max_retries : ℕ) (base_delay max_delay jitter : ℚ)
    (ra : Option ℚ) (p : Option (PyException → Bool))
    (hb : 0 ≤ base_delay) (hm : 0 ≤ max_delay) (hj : 0 ≤ jitter)
    (hjs : ∀ n, |js n| ≤ jitter) :
    (∀ m n, m ≤ n →
      backoffRawDelay base_delay max_delay m ≤ backoffRawDelay base_delay max_delay n)
    ∧ (∀ n, backoffRawDelay base_delay max_delay n ≤ max_delay)
    ∧ ∀ s ∈ (call_with_exponential_backoff oracle js max_retries base_delay
        max_delay jitter ra p).2,
        s ≤ max (max_delay * (1 + jitter)) (ra.getD 0)
        ∧ ∀ r, ra = some r → r ≤ s := by
  refine ⟨fun m n h => backoffRawDelay_mono base_delay max_delay hb h,
    fun n => backoffRawDelay_le_max base_delay max_delay n, ?_⟩
  exact backoffLoop_sleeps_prop oracle js base_delay max_delay jitter ra p
    (fun s => s ≤ max (max_delay * (1 + jitter)) (ra.getD 0)
      ∧ ∀ r, ra = some r → r ≤ s)
    (fun n => backoffSleptDelay_bound base_delay max_delay jitter (js n)
      hb hm hj (hjs n) ra n)
    max_retries 0 [] (by simp)

/-- C6 amended witness: with `base_delay = 1`, `max_delay = 60`,
`jitter = 1/4`, constant draw `1/4` and no suggested wait, the sole sleep of a
one-retry run is bounded by `75 = 60 * (1 + 1/4)`, and the raw delays of
attempts 2 and 3 are ordered. -/
theorem c6_witness :
    (backoffRawDelay 1 60 2 ≤ backoffRawDelay 1 60 3)
    ∧ ((5 : ℚ) ∈ (call_with_exponential_backoff (α := Nat)
          (fun _ => .error (.generic "boom")) (fun _ => 1/4) 1 1 60 (1/4)
          none none).2 →
        (5 : ℚ) ≤ max (60 * (1 + 1/4)) ((none : Option ℚ).getD 0)) := by
  constructor
  · exact (c6_backoff_delay_bounds (α := Nat)
      (fun _ => .error (.generic "boom")) (fun _ => 1/4) 1 1 60 (1/4)
      none none (by norm_num) (by norm_num) (by norm_num)
      (fun n => le_of_eq (abs_of_nonneg (by norm_num)))).1 2 3 (by norm_num)
  · intro hmem
    exact ((c6_backoff_delay_bounds (α := Nat)
      (fun _ => .error (.generic "boom")) (fun _ => 1/4) 1 1 60 (1/4)
      none none (by norm_num) (by norm_num) (by norm_num)
      (fun n => le_of_eq (abs_of_nonneg (by norm_num)))).2.2 5 hmem).1

/-! ### Judging-stage lemmas -/

/-- Membership through descending insertion. -/
theorem mem_insertByIdDesc (x y : LegalDoc × Option NewsArticle)
    (l : List (LegalDoc × Option NewsArticle)) :
    y ∈ insertByIdDesc x l ↔ y = x ∨ y ∈ l := by
  induction l with
  | nil => simp [insertByIdDesc]
  | cons z zs ih =>
    by_cases h : z.1.id ≤ x.1.id ∧ x.1.id ≠ z.1.id
    · simp [insertByIdDesc, h]
    · simp [insertByIdDesc, h, ih]
      tauto

/-- `ORDER BY` keeps exactly the filtered rows. -/
theorem mem_orderByIdDesc (y : LegalDoc × Option NewsArticle)
    (l : List (LegalDoc × Option NewsArticle)) :
    y ∈ orderByIdDesc l ↔ y ∈ l := by
  induction l with
  | nil => simp [orderByIdDesc]
  | cons z zs ih => simp [orderByIdDesc, mem_insertByIdDesc, ih]

/-- The legal-docs row of the C3 counterexample. -/
def c3Doc : LegalDoc :=
  { id := 1, site_name := "site" }

/-- The news-articles row of the C3 counterexample: `RETRY`, with a retry
timestamp far in the future. -/
def c3Article : NewsArticle :=
  { legal_doc_id := 1
    review_status := some "RETRY"
    review_error := some "timeout"
    review_error_kind := some "timeout"
    review_attempts := some 1
    review_next_retry_at := some (isoOfEpoch 9999) }

/-- The store of the C3 counterexample. -/
def c3Db : DB :=
  { legal_docs := [c3Doc]
    news_articles := fun i => if i = 1 then some c3Article else none }

/-- C3 counterexample.  The claim says a `RETRY` row whose
`review_next_retry_at` lies in the future is not selected.  The judging
candidate query filters only on `na.id IS NULL OR review_status = 'RETRY'`
and never reads `review_next_retry_at`: at `now = 0` this row's retry
timestamp (epoch 9999) lies in the future, yet the query selects it. -/
theorem c3_counterexample :
    judgingQuery c3Db 10 = [(c3Doc, some c3Article)]
    ∧ c3Article.review_status = some "RETRY"
    ∧ c3Article.review_next_retry_at = some (isoOfEpoch 9999)
    ∧ (0 : Int) < 9999 := by
  refine ⟨by decide, rfl, rfl, by norm_num⟩

/-- C3 (amended).  A `RETRY` row is re-selected by the judging stage
regardless of `review_next_retry_at`: every selected row either has no
`news_articles` record or has `review_status = 'RETRY'`, and the selection
predicate is invariant under any change of `review_next_retry_at` (the query
does not consult that column). -/
theorem c3_retry_reselected_regardless_of_retry_at :
    (∀ (db : DB) (limit : Nat) (p : LegalDoc × Option NewsArticle),
      p ∈ judgingQuery db limit → judgingWhere p.2 = true)
    ∧ ∀ (a : NewsArticle) (t t' : Option String),
      judgingWhere (some { a with review_next_retry_at := t })
        = judgingWhere (some { a with review_next_retry_at := t' }) := by
  constructor
  · intro db limit p hp
    have h1 : p ∈ orderByIdDesc
        ((db.legal_docs.map (fun ld => (ld, db.news_articles ld.id))).filter
          (fun q => judgingWhere q.2)) :=
      List.take_subset _ _ hp
    have h2 := (mem_orderByIdDesc p _).mp h1
    exact (List.mem_filter.mp h2).2
  · intro a t t'
    rfl

/-- C3 amended witness: the predicate holds of the concrete selected row. -/
theorem c3_witness : judgingWhere (some c3Article) = true :=
  c3_retry_reselected_regardless_of_retry_at.1 c3Db 10 (c3Doc, some c3Article)
    (by decide)

/-- The rate-limit `LLMError` of the C4 counterexample: its classification
carries a 600-second cooldown. -/
def c4RateLimitError : PyException :=
  .llmError { kind := .rate_limit, message := "rate limited",
              status_code := some 429 }

/-- C4 counterexample.  The claim says the failure path sets
`review_next_retry_at` to now plus the classified cooldown, defaulting to
120 seconds when unclassified.  The code reads
`getattr(cls, "retry_after_seconds", None)` from an `LLMErrorClassification`,
which declares no such field, and falls back to the literal 90: a rate-limit
failure classified with a 600-second cooldown is scheduled at `now + 90`, and
an unclassified failure (cooldown 0) also at `now + 90`, not `now + 120`. -/
theorem c4_counterexample :
    (classify_llm_error c4RateLimitError).cooldown_seconds = 600
    ∧ (judgingFailureWrite 1000 c4RateLimitError).review_next_retry_at
        = isoOfEpoch (1000 + 90)
    ∧ isoOfEpoch (1000 + 90) ≠ isoOfEpoch (1000 + 600)
    ∧ (classify_llm_error (.generic "boom")).cooldown_seconds = 0
    ∧ (judgingFailureWrite 1000 (.generic "boom")).review_next_retry_at
        = isoOfEpoch (1000 + 90)
    ∧ isoOfEpoch (1000 + 90) ≠ isoOfEpoch (1000 + 120) := by
  refine ⟨by decide, by decide, by decide, by decide, by decide, by decide⟩

/-- C4 (amended).  On the failure path for a row the stage writes
`review_status = 'RETRY'`, `review_error = str(e)`, `review_error_kind` from
the classification's reason, increments `review_attempts` by exactly one —
but sets `review_next_retry_at` to now plus a fixed 90 seconds, never the
classified cooldown (the classification carries no `retry_after_seconds`
attribute, so the `getattr` default always applies). -/
theorem c4_failure_path_writes (db : DB) (r : CandidateRow) (now : Int)
    (e : PyException) :
    ∃ a, (applyJudgingFailure db r now e).news_articles r.legal_doc_id = some a
      ∧ a.review_status = some "RETRY"
      ∧ a.review_error = some e.str
      ∧ a.review_error_kind = some (classify_llm_error e).reason
      ∧ a.review_next_retry_at = some (isoOfEpoch (now + 90))
      ∧ a.review_attempts = some
          ((match db.news_articles r.legal_doc_id with
            | none => 0
            | some old => old.review_attempts.getD 0) + 1) := by
  cases hdb : db.news_articles r.legal_doc_id with
  | none =>
    refine ⟨{ legal_doc_id := r.legal_doc_id, titulo := some r.title,
              review_status := some "RETRY",
              review_error := some (judgingFailureWrite now e).review_error,
              review_error_kind := (judgingFailureWrite now e).review_error_kind,
              review_http_status := (judgingFailureWrite now e).review_http_status,
              review_attempts := some 1,
              review_next_retry_at :=
                some (judgingFailureWrite now e).review_next_retry_at,
              created_at := some (isoOfEpoch now),
              updated_at := some (isoOfEpoch now) }, ?_, rfl, rfl, rfl, rfl, ?_⟩
    · simp [applyJudgingFailure, hdb]
    · simp [hdb]
  | some old =>
    refine ⟨{ old with review_status := some "RETRY", review_error := some (judgingFailureWrite now e).review_error, review_error_kind := (judgingFailureWrite now e).review_error_kind, review_http_status := (judgingFailureWrite now e).review_http_status, review_attempts := some (old.review_attempts.getD 0 + 1), review_next_retry_at := some (judgingFailureWrite now e).review_next_retry_at, updated_at := some (isoOfEpoch now) }, ?_, rfl, rfl, rfl, rfl, ?_⟩
    · simp [applyJudgingFailure, hdb]
    · simp [hdb]

/-- The store transition of one row of the batch loop (its own outcome only). -/
def judgingStepDB (oracle : CandidateRow → JudgeOutcome) (threshold : ℚ)
    (now : Int) (db : DB) (r : CandidateRow) : DB :=
  match oracle r with
  | .ok res => applyJudgingSuccess db r res threshold now
  | .exc e => applyJudgingFailure db r now e

/-- The store component of `judgingRun` is the fold of the per-row store
transitions (the processed counter does not feed back into the writes). -/
theorem judgingRun_db (oracle : CandidateRow → JudgeOutcome) (threshold : ℚ)
    (now : Int) (rows : List CandidateRow) :
    ∀ (db0 : DB) (n0 : Nat),
      (List.foldl
        (fun acc r =>
          match oracle r with
          | .ok res => (applyJudgingSuccess acc.1 r res threshold now, acc.2 + 1)
          | .exc e => (applyJudgingFailure acc.1 r now e, acc.2))
        (db0, n0) rows).1
      = rows.foldl (judgingStepDB oracle threshold now) db0 := by
  induction rows with
  | nil => intro db0 n0; rfl
  | cons r rs ih =>
    intro db0 n0
    cases ho : oracle r <;>
      simp [List.foldl_cons, judgingStepDB, ho, ih]

/-- A row's transition does not touch any other `legal_doc_id`. -/
theorem judgingStepDB_other (oracle : CandidateRow → JudgeOutcome)
    (threshold : ℚ) (now : Int) (db : DB) (r : CandidateRow) (i : Int)
    (h : i ≠ r.legal_doc_id) :
    (judgingStepDB oracle threshold now db r).news_articles i
      = db.news_articles i := by
  cases ho : oracle r <;>
    simp [judgingStepDB, ho, applyJudgingSuccess, applyJudgingFailure, h]

/-- Rows whose ids all differ from `i` leave the entry at `i` unchanged. -/
theorem judgingFold_untouched (oracle : CandidateRow → JudgeOutcome)
    (threshold : ℚ) (now : Int) (rows : List CandidateRow) :
    ∀ (db : DB) (i : Int), (∀ r' ∈ rows, r'.legal_doc_id ≠ i) →
      (rows.foldl (judgingStepDB oracle threshold now) db).news_articles i
        = db.news_articles i := by
  induction rows with
  | nil => intro db i _; rfl
  | cons r rs ih =>
    intro db i h
    rw [List.foldl_cons, ih _ i (fun r' hr' => h r' (List.mem_cons_of_mem r hr')),
      judgingStepDB_other oracle threshold now db r i
        (fun hi => h r (List.mem_cons_self r rs) hi.symm)]

/-- The classifier's reason string is never empty. -/
theorem classify_reason_ne_empty (e : PyException) :
    (classify_llm_error e).reason ≠ "" := by
  cases e with
  | llmError d =>
    show d.reason ≠ ""
    unfold LLMErrorDetails.reason
    cases d.kind <;> decide
  | timeoutError m =>
    simp only [classify_llm_error]
    split_ifs <;> simp [ErrorKind.value]
  | generic m =>
    simp only [classify_llm_error]
    split_ifs <;> simp [ErrorKind.value]

/-- A successfully judged row's entry after its own transition. -/
theorem judgingStepDB_self_ok (oracle : CandidateRow → JudgeOutcome)
    (threshold : ℚ) (now : Int) (db : DB) (r : CandidateRow) (res : JudgeResult)
    (ho : oracle r = .ok res) :
    ∃ a, (judgingStepDB oracle threshold now db r).news_articles r.legal_doc_id
        = some a ∧ a.review_status = some "JUDGED" := by
  cases hdb : db.news_articles r.legal_doc_id with
  | none => simp [judgingStepDB, ho, applyJudgingSuccess, hdb]
  | some old => simp [judgingStepDB, ho, applyJudgingSuccess, hdb]

/-- A failed row's entry after its own transition: `RETRY` with the
classification's reason recorded. -/
theorem judgingStepDB_self_exc (oracle : CandidateRow → JudgeOutcome)
    (threshold : ℚ) (now : Int) (db : DB) (r : CandidateRow) (e : PyException)
    (ho : oracle r = .exc e) :
    ∃ a, (judgingStepDB oracle threshold now db r).news_articles r.legal_doc_id
        = some a ∧ a.review_status = some "RETRY"
      ∧ a.review_error_kind = some (classify_llm_error e).reason := by
  cases hdb : db.news_articles r.legal_doc_id with
  | none => simp [judgingStepDB, ho, applyJudgingFailure, hdb, judgingFailureWrite]
  | some old => simp [judgingStepDB, ho, applyJudgingFailure, hdb, judgingFailureWrite]

/-- Each row of a distinct-id batch ends with the terminal write of its own
outcome, whatever the other rows did. -/
theorem judgingFold_row_outcome (oracle : CandidateRow → JudgeOutcome)
    (threshold : ℚ) (now : Int) (r : CandidateRow) :
    ∀ (rows : List CandidateRow) (db0 : DB),
      (rows.map (fun q => q.legal_doc_id)).Nodup → r ∈ rows →
      (∀ res, oracle r = .ok res →
        ∃ a, (rows.foldl (judgingStepDB oracle threshold now) db0).news_articles
            r.legal_doc_id = some a ∧ a.review_status = some "JUDGED")
      ∧ (∀ e, oracle r = .exc e →
        ∃ a, (rows.foldl (judgingStepDB oracle threshold now) db0).news_articles
            r.legal_doc_id = some a ∧ a.review_status = some "RETRY"
          ∧ a.review_error_kind = some (classify_llm_error e).reason) := by
  intro rows
  induction rows with
  | nil => intro db0 _ hr; cases hr
  | cons x rest ih =>
    intro db0 hnd hr
    have hsplit : (∀ q ∈ rest, ¬q.legal_doc_id = x.legal_doc_id) ∧
        (rest.map (fun q => q.legal_doc_id)).Nodup := by
      simpa using hnd
    rcases List.mem_cons.mp hr with rfl | hr'
    · -- the target row is processed first; the remaining rows have
      -- different ids and leave its entry alone.
      have hrest : ∀ q ∈ rest, q.legal_doc_id ≠ r.legal_doc_id := hsplit.1
      constructor
      · intro res hres
        obtain ⟨a, ha, hs⟩ :=
          judgingStepDB_self_ok oracle threshold now db0 r res hres
        refine ⟨a, ?_, hs⟩
        rw [List.foldl_cons,
          judgingFold_untouched oracle threshold now rest _ _ hrest, ha]
      · intro e he
        obtain ⟨a, ha, hs, hk⟩ :=
          judgingStepDB_self_exc oracle threshold now db0 r e he
        refine ⟨a, ?_, hs, hk⟩
        rw [List.foldl_cons,
          judgingFold_untouched oracle threshold now rest _ _ hrest, ha]
    · rw [List.foldl_cons]
      exact ih (judgingStepDB oracle threshold now db0 x) hsplit.2 hr'

/-- C5. An exception while processing one row never aborts the batch: with
pairwise-distinct row ids, every row of the batch reaches the terminal write
of its own outcome — `JUDGED` on success, `RETRY` with a populated (non-empty)
`review_error_kind` on an exception — regardless of what happened to the other
rows, and rows outside the batch are untouched. -/
theorem c5_row_failure_isolated (db0 : DB) (rows : List CandidateRow)
    (oracle : CandidateRow → JudgeOutcome) (threshold : ℚ) (now : Int)
    (hnd : (rows.map (fun q => q.legal_doc_id)).Nodup) :
    (∀ r ∈ rows,
      (∀ res, oracle r = .ok res →
        ∃ a, (judgingRun db0 rows oracle threshold now).1.news_articles
            r.legal_doc_id = some a ∧ a.review_status = some "JUDGED")
      ∧ (∀ e, oracle r = .exc e →
        ∃ a, (judgingRun db0 rows oracle threshold now).1.news_articles
            r.legal_doc_id = some a ∧ a.review_status = some "RETRY"
          ∧ a.review_error_kind = some (classify_llm_error e).reason
          ∧ (classify_llm_error e).reason ≠ ""))
    ∧ ∀ i : Int, (∀ q ∈ rows, q.legal_doc_id ≠ i) →
        (judgingRun db0 rows oracle threshold now).1.news_articles i
          = db0.news_articles i := by
  have hrun : (judgingRun db0 rows oracle threshold now).1
      = rows.foldl (judgingStepDB oracle threshold now) db0 := by
    unfold judgingRun
    exact judgingRun_db oracle threshold now rows db0 0
  constructor
  · intro r hr
    obtain ⟨hok, hexc⟩ :=
      judgingFold_row_outcome oracle threshold now r rows db0 hnd hr
    constructor
    · intro res hres
      rw [hrun]
      exact hok res hres
    · intro e he
      obtain ⟨a, ha, hs, hk⟩ := hexc e he
      rw [hrun]
      exact ⟨a, ha, hs, hk, classify_reason_ne_empty e⟩
  · intro i hi
    rw [hrun]
    exact judgingFold_untouched oracle threshold now rows db0 i hi

/-- The five-row batch of the C5 witness. -/
def c5Rows : List CandidateRow :=
  [⟨1, "s", "t1", "u1", "sn1"⟩, ⟨2, "s", "t2", "u2", "sn2"⟩,
   ⟨3, "s", "t3", "u3", "sn3"⟩, ⟨4, "s", "t4", "u4", "sn4"⟩,
   ⟨5, "s", "t5", "u5", "sn5"⟩]

/-- The C5 witness oracle: row 3 raises, the others judge successfully. -/
def c5Oracle : CandidateRow → JudgeOutcome :=
  fun r =>
    if r.legal_doc_id = 3 then .exc (.generic "boom")
    else .ok { final_score := some 1 }

/-- An empty store for the C5 witness. -/
def c5Db : DB :=
  { legal_docs := [], news_articles := fun _ => none }

/-- C5 witness: in the concrete 5-row batch where row 3 raises, row 3 is
written as `RETRY` with a populated `review_error_kind` and row 2 still
reaches its `JUDGED` terminal write. -/
theorem c5_witness :
    (∃ a, (judgingRun c5Db c5Rows c5Oracle 0 0).1.news_articles 3 = some a
      ∧ a.review_status = some "RETRY"
      ∧ a.review_error_kind = some (classify_llm_error (.generic "boom")).reason
      ∧ (classify_llm_error (.generic "boom")).reason ≠ "")
    ∧ ∃ a, (judgingRun c5Db c5Rows c5Oracle 0 0).1.news_articles 2 = some a
      ∧ a.review_status = some "JUDGED" :=
  ⟨((c5_row_failure_isolated c5Db c5Rows c5Oracle 0 0 (by decide)).1
      ⟨3, "s", "t3", "u3", "sn3"⟩ (by decide)).2 (.generic "boom") rfl,
   ((c5_row_failure_isolated c5Db c5Rows c5Oracle 0 0 (by decide)).1
      ⟨2, "s", "t2", "u2", "sn2"⟩ (by decide)).1 { final_score := some 1 } rfl⟩

end Vozdipovo
